import Mathlib

/-!
Shallow embedding of the BigGAN components notebook
(`2-Build better GANs/week3-StyleGANAndAdvancements/BigGAN.py`).

Tensors are modelled as shape-carrying structures over `ℝ`; a 4-D tensor
`[B, C, H, W]` stores its four extents together with a total data function.
PyTorch operations that raise shape errors at runtime are modelled as
`Option`-returning functions guarded by the exact arithmetic side conditions
PyTorch checks; pure tensor arithmetic (convolution, pooling, softmax,
batch-norm in eval mode with running statistics, matrix product) is modelled
as total functions producing the output extents PyTorch documents.

Spectral normalization (`nn.utils.spectral_norm`) is a training-time weight
reparameterization maintained by power iteration outside the forward
computation; each wrapped layer here carries its effective (already
normalized) weight function together with an `sn : Bool` flag recording
whether the source wraps that layer in `nn.utils.spectral_norm`.
-/

/-- A 2-D tensor `[n, d]` (batch of row vectors). -/
@[ext] structure Tensor2 where
  n : ℕ
  d : ℕ
  data : ℕ → ℕ → ℝ

/-- A 3-D tensor `[n, p, q]` (batch of matrices). -/
@[ext] structure Tensor3 where
  n : ℕ
  p : ℕ
  q : ℕ
  data : ℕ → ℕ → ℕ → ℝ

/-- A 4-D tensor `[n, c, h, w]` (batch of feature maps). -/
@[ext] structure Tensor4 where
  n : ℕ
  c : ℕ
  h : ℕ
  w : ℕ
  data : ℕ → ℕ → ℕ → ℕ → ℝ

/-- Default (empty) 2-D tensor, used for out-of-range list reads that are
ruled out by the guards of the functions using them. -/
def dT2 : Tensor2 := ⟨0, 0, fun _ _ => 0⟩

/-- Number of elements of a 4-D tensor. -/
def numel4 (t : Tensor4) : ℕ := t.n * (t.c * (t.h * t.w))

/-- Number of elements of a 3-D tensor. -/
def numel3 (t : Tensor3) : ℕ := t.n * (t.p * t.q)

/-- Row-major flattening of a 4-D tensor, as in `Tensor.view`. -/
def flat4 (t : Tensor4) : ℕ → ℝ := fun k =>
  t.data (k / (t.c * (t.h * t.w))) (k / (t.h * t.w) % t.c) (k / t.w % t.h) (k % t.w)

/-- Row-major flattening of a 3-D tensor. -/
def flat3 (t : Tensor3) : ℕ → ℝ := fun k =>
  t.data (k / (t.p * t.q)) (k / t.q % t.p) (k % t.q)

/-- `t.view(-1, c, len)`: reshape a 4-D tensor to 3-D, inferring the batch
extent from the element count (the caller guards divisibility). -/
def view3 (t : Tensor4) (c len : ℕ) : Tensor3 :=
  ⟨numel4 t / (c * len), c, len, fun b i l => flat4 t (b * (c * len) + i * len + l)⟩

/-- `t.view(-1, c, h, w)`: reshape a 3-D tensor to 4-D, inferring the batch
extent from the element count (the caller guards divisibility). -/
def view4of3 (t : Tensor3) (c h w : ℕ) : Tensor4 :=
  ⟨numel3 t / (c * (h * w)), c, h, w,
   fun b ch i j => flat3 t (b * (c * (h * w)) + ch * (h * w) + i * w + j)⟩

/-- `t.view(t.size(0), -1, bw, bw)` on a 2-D tensor: keep the batch extent,
infer the channel extent (the caller guards divisibility). -/
def view4of2 (t : Tensor2) (bw : ℕ) : Tensor4 :=
  ⟨t.n, t.d / (bw * bw), bw, bw, fun b c i j => t.data b (c * (bw * bw) + i * bw + j)⟩

/-- `torch.transpose(t, 1, 2)` on a 3-D tensor. -/
def transpose3 (t : Tensor3) : Tensor3 := ⟨t.n, t.q, t.p, fun b i j => t.data b j i⟩

/-- `torch.bmm`: batch matrix product (callers guard batch and inner extents). -/
def bmm (a b : Tensor3) : Tensor3 :=
  ⟨a.n, a.p, b.q, fun bi i j => ∑ k ∈ Finset.range a.q, a.data bi i k * b.data bi k j⟩

/-- `F.softmax(t, dim=-1)` on a 3-D tensor. -/
noncomputable def softmax3 (t : Tensor3) : Tensor3 :=
  ⟨t.n, t.p, t.q, fun b i j =>
    Real.exp (t.data b i j) / ∑ k ∈ Finset.range t.q, Real.exp (t.data b i k)⟩

/-- `F.relu` / `nn.ReLU` on a 4-D tensor. -/
def relu4 (t : Tensor4) : Tensor4 :=
  ⟨t.n, t.c, t.h, t.w, fun b c i j => max (t.data b c i j) 0⟩

/-- `nn.Tanh` applied elementwise to a 4-D tensor. -/
noncomputable def tanh4 (t : Tensor4) : Tensor4 :=
  ⟨t.n, t.c, t.h, t.w, fun b c i j => Real.tanh (t.data b c i j)⟩

/-- `F.max_pool2d(t, kernel_size=2)`: spatial max-pooling by 2 in each
dimension (output extents are floored halves, per PyTorch). -/
def maxPool2 (t : Tensor4) : Tensor4 :=
  ⟨t.n, t.c, t.h / 2, t.w / 2, fun b c i j =>
    max (max (t.data b c (2 * i) (2 * j)) (t.data b c (2 * i) (2 * j + 1)))
        (max (t.data b c (2 * i + 1) (2 * j)) (t.data b c (2 * i + 1) (2 * j + 1)))⟩

/-- `nn.AvgPool2d(2)`: spatial average-pooling by 2 in each dimension. -/
noncomputable def avgPool2 (t : Tensor4) : Tensor4 :=
  ⟨t.n, t.c, t.h / 2, t.w / 2, fun b c i j =>
    (t.data b c (2 * i) (2 * j) + t.data b c (2 * i) (2 * j + 1) +
     t.data b c (2 * i + 1) (2 * j) + t.data b c (2 * i + 1) (2 * j + 1)) / 4⟩

/-- `nn.Upsample(scale_factor=2)` (nearest-neighbour, the PyTorch default). -/
def upsample2 (t : Tensor4) : Tensor4 :=
  ⟨t.n, t.c, 2 * t.h, 2 * t.w, fun b c i j => t.data b c (i / 2) (j / 2)⟩

/-- Elementwise sum of two 4-D tensors of equal shape (extents taken from the
first argument; callers establish the shapes match). -/
def add4 (a x : Tensor4) : Tensor4 :=
  ⟨a.n, a.c, a.h, a.w, fun b c i j => a.data b c i j + x.data b c i j⟩

/-- Elementwise sum of two 2-D tensors of equal shape. -/
def add2 (a x : Tensor2) : Tensor2 :=
  ⟨a.n, a.d, fun b j => a.data b j + x.data b j⟩

/-- `torch.cat([a, b], dim=1)` for 2-D tensors (callers guard equal batches). -/
def cat2 (a b : Tensor2) : Tensor2 :=
  ⟨a.n, a.d + b.d, fun r j => if j < a.d then a.data r j else b.data r (j - a.d)⟩

/-- `torch.split(z, cs, dim=1)`: chop the feature dimension into chunks of
width `cs` (the final chunk may be narrower). -/
def split2 (z : Tensor2) (cs : ℕ) : List Tensor2 :=
  (List.range ((z.d + cs - 1) / cs)).map fun i =>
    ⟨z.n, min cs (z.d - i * cs), fun b j => z.data b (i * cs + j)⟩

/-- `torch.sum(t, dim=[2, 3])`: global spatial sum-pooling. -/
def sumPool (t : Tensor4) : Tensor2 :=
  ⟨t.n, t.c, fun b c => ∑ i ∈ Finset.range t.h, ∑ j ∈ Finset.range t.w, t.data b c i j⟩

/-- Zero-padded read of a feature map at (possibly out-of-range) integer
spatial coordinates, for convolution with padding. -/
def padGet (t : Tensor4) (b c : ℕ) (r s : ℤ) : ℝ :=
  if 0 ≤ r ∧ r < (t.h : ℤ) ∧ 0 ≤ s ∧ s < (t.w : ℤ) then t.data b c r.toNat s.toNat else 0

/-- Parameters of an `nn.Conv2d` layer: channel extents, kernel size, padding,
whether the source wraps it in `nn.utils.spectral_norm`, the (effective)
weight `[outC, inC, k, k]` and the bias `[outC]`. -/
structure Conv2dP where
  inC : ℕ
  outC : ℕ
  k : ℕ
  p : ℕ
  sn : Bool
  W : ℕ → ℕ → ℕ → ℕ → ℝ
  bias : ℕ → ℝ

/-- Stride-1 2-D convolution with square kernel `k` and symmetric zero
padding `p`; output spatial extents are `H + 2p + 1 - k` as in PyTorch. -/
def conv2d (P : Conv2dP) (x : Tensor4) : Tensor4 :=
  ⟨x.n, P.outC, x.h + 2 * P.p + 1 - P.k, x.w + 2 * P.p + 1 - P.k,
   fun b oc i j => P.bias oc +
     ∑ ic ∈ Finset.range P.inC, ∑ di ∈ Finset.range P.k, ∑ dj ∈ Finset.range P.k,
       P.W oc ic di dj * padGet x b ic ((i : ℤ) + di - P.p) ((j : ℤ) + dj - P.p)⟩

/-- A bias-free 1x1 convolution given directly by its `[outC, inC]` weight
matrix (the attention block's `theta`, `phi`, `g`, `o` projections). -/
def conv1x1nb (outC inC : ℕ) (W : ℕ → ℕ → ℝ) (x : Tensor4) : Tensor4 :=
  ⟨x.n, outC, x.h, x.w, fun b oc i j =>
    ∑ ic ∈ Finset.range inC, W oc ic * x.data b ic i j⟩

/-- Parameters of an `nn.Linear` layer. -/
structure LinearP where
  inDim : ℕ
  outDim : ℕ
  sn : Bool
  W : ℕ → ℕ → ℝ
  bias : ℕ → ℝ

/-- `nn.Linear` applied to a batch of row vectors. -/
def linearF (P : LinearP) (x : Tensor2) : Tensor2 :=
  ⟨x.n, P.outDim, fun b k => P.bias k + ∑ j ∈ Finset.range P.inDim, P.W k j * x.data b j⟩

/-- Parameters of an `nn.BatchNorm2d` layer, evaluated with its running
statistics (the notebook never runs a training step). -/
structure BN2d where
  eps : ℝ
  rmean : ℕ → ℝ
  rvar : ℕ → ℝ
  wgt : ℕ → ℝ
  bias : ℕ → ℝ

/-- `nn.BatchNorm2d` forward with running statistics:
`(x - mean) / sqrt(var + eps) * weight + bias`, per channel. -/
noncomputable def bn2dFwd (m : BN2d) (x : Tensor4) : Tensor4 :=
  ⟨x.n, x.c, x.h, x.w, fun b c i j =>
    (x.data b c i j - m.rmean c) / Real.sqrt (m.rvar c + m.eps) * m.wgt c + m.bias c⟩

-- Shape lemmas for the primitive operations.

@[simp] theorem view3_n (t : Tensor4) (c len : ℕ) : (view3 t c len).n = numel4 t / (c * len) := rfl
@[simp] theorem view3_p (t : Tensor4) (c len : ℕ) : (view3 t c len).p = c := rfl
@[simp] theorem view3_q (t : Tensor4) (c len : ℕ) : (view3 t c len).q = len := rfl
@[simp] theorem transpose3_n (t : Tensor3) : (transpose3 t).n = t.n := rfl
@[simp] theorem transpose3_p (t : Tensor3) : (transpose3 t).p = t.q := rfl
@[simp] theorem transpose3_q (t : Tensor3) : (transpose3 t).q = t.p := rfl
@[simp] theorem bmm_n (a b : Tensor3) : (bmm a b).n = a.n := rfl
@[simp] theorem bmm_p (a b : Tensor3) : (bmm a b).p = a.p := rfl
@[simp] theorem bmm_q (a b : Tensor3) : (bmm a b).q = b.q := rfl
@[simp] theorem softmax3_n (t : Tensor3) : (softmax3 t).n = t.n := rfl
@[simp] theorem softmax3_p (t : Tensor3) : (softmax3 t).p = t.p := rfl
@[simp] theorem softmax3_q (t : Tensor3) : (softmax3 t).q = t.q := rfl
@[simp] theorem relu4_n (t : Tensor4) : (relu4 t).n = t.n := rfl
@[simp] theorem relu4_c (t : Tensor4) : (relu4 t).c = t.c := rfl
@[simp] theorem relu4_h (t : Tensor4) : (relu4 t).h = t.h := rfl
@[simp] theorem relu4_w (t : Tensor4) : (relu4 t).w = t.w := rfl
@[simp] theorem tanh4_n (t : Tensor4) : (tanh4 t).n = t.n := rfl
@[simp] theorem tanh4_c (t : Tensor4) : (tanh4 t).c = t.c := rfl
@[simp] theorem tanh4_h (t : Tensor4) : (tanh4 t).h = t.h := rfl
@[simp] theorem tanh4_w (t : Tensor4) : (tanh4 t).w = t.w := rfl
@[simp] theorem maxPool2_n (t : Tensor4) : (maxPool2 t).n = t.n := rfl
@[simp] theorem maxPool2_c (t : Tensor4) : (maxPool2 t).c = t.c := rfl
@[simp] theorem maxPool2_h (t : Tensor4) : (maxPool2 t).h = t.h / 2 := rfl
@[simp] theorem maxPool2_w (t : Tensor4) : (maxPool2 t).w = t.w / 2 := rfl
@[simp] theorem avgPool2_n (t : Tensor4) : (avgPool2 t).n = t.n := rfl
@[simp] theorem avgPool2_c (t : Tensor4) : (avgPool2 t).c = t.c := rfl
@[simp] theorem avgPool2_h (t : Tensor4) : (avgPool2 t).h = t.h / 2 := rfl
@[simp] theorem avgPool2_w (t : Tensor4) : (avgPool2 t).w = t.w / 2 := rfl
@[simp] theorem upsample2_n (t : Tensor4) : (upsample2 t).n = t.n := rfl
@[simp] theorem upsample2_c (t : Tensor4) : (upsample2 t).c = t.c := rfl
@[simp] theorem upsample2_h (t : Tensor4) : (upsample2 t).h = 2 * t.h := rfl
@[simp] theorem upsample2_w (t : Tensor4) : (upsample2 t).w = 2 * t.w := rfl
@[simp] theorem add4_n (a x : Tensor4) : (add4 a x).n = a.n := rfl
@[simp] theorem add4_c (a x : Tensor4) : (add4 a x).c = a.c := rfl
@[simp] theorem add4_h (a x : Tensor4) : (add4 a x).h = a.h := rfl
@[simp] theorem add4_w (a x : Tensor4) : (add4 a x).w = a.w := rfl
@[simp] theorem add2_n (a x : Tensor2) : (add2 a x).n = a.n := rfl
@[simp] theorem add2_d (a x : Tensor2) : (add2 a x).d = a.d := rfl
@[simp] theorem cat2_n (a b : Tensor2) : (cat2 a b).n = a.n := rfl
@[simp] theorem cat2_d (a b : Tensor2) : (cat2 a b).d = a.d + b.d := rfl
@[simp] theorem sumPool_n (t : Tensor4) : (sumPool t).n = t.n := rfl
@[simp] theorem sumPool_d (t : Tensor4) : (sumPool t).d = t.c := rfl
@[simp] theorem conv2d_n (P : Conv2dP) (x : Tensor4) : (conv2d P x).n = x.n := rfl
@[simp] theorem conv2d_c (P : Conv2dP) (x : Tensor4) : (conv2d P x).c = P.outC := rfl
@[simp] theorem conv2d_h (P : Conv2dP) (x : Tensor4) :
    (conv2d P x).h = x.h + 2 * P.p + 1 - P.k := rfl
@[simp] theorem conv2d_w (P : Conv2dP) (x : Tensor4) :
    (conv2d P x).w = x.w + 2 * P.p + 1 - P.k := rfl
@[simp] theorem conv1x1nb_n (o i : ℕ) (W : ℕ → ℕ → ℝ) (x : Tensor4) :
    (conv1x1nb o i W x).n = x.n := rfl
@[simp] theorem conv1x1nb_c (o i : ℕ) (W : ℕ → ℕ → ℝ) (x : Tensor4) :
    (conv1x1nb o i W x).c = o := rfl
@[simp] theorem conv1x1nb_h (o i : ℕ) (W : ℕ → ℕ → ℝ) (x : Tensor4) :
    (conv1x1nb o i W x).h = x.h := rfl
@[simp] theorem conv1x1nb_w (o i : ℕ) (W : ℕ → ℕ → ℝ) (x : Tensor4) :
    (conv1x1nb o i W x).w = x.w := rfl
@[simp] theorem linearF_n (P : LinearP) (x : Tensor2) : (linearF P x).n = x.n := rfl
@[simp] theorem linearF_d (P : LinearP) (x : Tensor2) : (linearF P x).d = P.outDim := rfl
@[simp] theorem bn2dFwd_n (m : BN2d) (x : Tensor4) : (bn2dFwd m x).n = x.n := rfl
@[simp] theorem bn2dFwd_c (m : BN2d) (x : Tensor4) : (bn2dFwd m x).c = x.c := rfl
@[simp] theorem bn2dFwd_h (m : BN2d) (x : Tensor4) : (bn2dFwd m x).h = x.h := rfl
@[simp] theorem bn2dFwd_w (m : BN2d) (x : Tensor4) : (bn2dFwd m x).w = x.w := rfl
@[simp] theorem view4of2_n (t : Tensor2) (bw : ℕ) : (view4of2 t bw).n = t.n := rfl
@[simp] theorem view4of2_c (t : Tensor2) (bw : ℕ) : (view4of2 t bw).c = t.d / (bw * bw) := rfl
@[simp] theorem view4of2_h (t : Tensor2) (bw : ℕ) : (view4of2 t bw).h = bw := rfl
@[simp] theorem view4of2_w (t : Tensor2) (bw : ℕ) : (view4of2 t bw).w = bw := rfl
@[simp] theorem view4of3_c (t : Tensor3) (c h w : ℕ) : (view4of3 t c h w).c = c := rfl
@[simp] theorem view4of3_h (t : Tensor3) (c h w : ℕ) : (view4of3 t c h w).h = h := rfl
@[simp] theorem view4of3_w (t : Tensor3) (c h w : ℕ) : (view4of3 t c h w).w = w := rfl
@[simp] theorem view4of3_n (t : Tensor3) (c h w : ℕ) :
    (view4of3 t c h w).n = numel3 t / (c * (h * w)) := rfl

/-!
`AttentionBlock` (source lines 150-188).  Its `forward` performs three
`view`s with an inferred `-1` extent, two `bmm`s and a broadcast add, each
of which PyTorch guards with an arithmetic shape check; the embedding
returns `Option Tensor4` under the same guards.  The four 1x1 projections
are constructed bias-free and wrapped in `nn.utils.spectral_norm`.
-/

/-- Parameters of `AttentionBlock.__init__`: the channel count, the four
bias-free spectral-normalized 1x1 projections (`theta`, `phi`, `g`, `o`)
and the learnable residual gain `gamma` (a real scalar, initialized to 0). -/
structure AttentionBlock where
  channels : ℕ
  thSN : Bool
  phSN : Bool
  gSN : Bool
  oSN : Bool
  thW : ℕ → ℕ → ℝ
  phW : ℕ → ℕ → ℝ
  gW : ℕ → ℕ → ℝ
  oW : ℕ → ℕ → ℝ
  gamma : ℝ

/-- `theta = self.theta(x)` (query projection, `C -> C/8`). -/
def AttentionBlock.theta4 (A : AttentionBlock) (x : Tensor4) : Tensor4 :=
  conv1x1nb (A.channels / 8) A.channels A.thW x

/-- `phi = F.max_pool2d(self.phi(x), kernel_size=2)` (key projection). -/
def AttentionBlock.phi4 (A : AttentionBlock) (x : Tensor4) : Tensor4 :=
  maxPool2 (conv1x1nb (A.channels / 8) A.channels A.phW x)

/-- `g = F.max_pool2d(self.g(x), kernel_size=2)` (value projection). -/
def AttentionBlock.g4 (A : AttentionBlock) (x : Tensor4) : Tensor4 :=
  maxPool2 (conv1x1nb (A.channels / 2) A.channels A.gW x)

/-- `theta = theta.view(-1, self.channels // 8, spatial_size)`. -/
def AttentionBlock.theta3 (A : AttentionBlock) (x : Tensor4) : Tensor3 :=
  view3 (A.theta4 x) (A.channels / 8) (x.h * x.w)

/-- `phi = phi.view(-1, self.channels // 8, spatial_size // 4)`. -/
def AttentionBlock.phi3 (A : AttentionBlock) (x : Tensor4) : Tensor3 :=
  view3 (A.phi4 x) (A.channels / 8) (x.h * x.w / 4)

/-- `g = g.view(-1, self.channels // 2, spatial_size // 4)`. -/
def AttentionBlock.g3 (A : AttentionBlock) (x : Tensor4) : Tensor3 :=
  view3 (A.g4 x) (A.channels / 2) (x.h * x.w / 4)

/-- The raw attention scores `torch.bmm(theta.transpose(1, 2), phi)`. -/
def AttentionBlock.scores (A : AttentionBlock) (x : Tensor4) : Tensor3 :=
  bmm (transpose3 (A.theta3 x)) (A.phi3 x)

/-- `beta = F.softmax(torch.bmm(theta.transpose(1, 2), phi), dim=-1)`. -/
noncomputable def AttentionBlock.beta (A : AttentionBlock) (x : Tensor4) : Tensor3 :=
  softmax3 (A.scores x)

/-- `torch.bmm(g, beta.transpose(1, 2))`. -/
noncomputable def AttentionBlock.bmo (A : AttentionBlock) (x : Tensor4) : Tensor3 :=
  bmm (A.g3 x) (transpose3 (A.beta x))

/-- Element count of `bmo`, written through the computable `scores` extents
(`bmo.p` is `g3.p` and `bmo.q` is `scores.p`, the flattened spatial size). -/
def AttentionBlock.bmoNumel (A : AttentionBlock) (x : Tensor4) : ℕ :=
  (A.g3 x).n * ((A.g3 x).p * (A.scores x).p)

/-- `o = self.o(torch.bmm(g, beta.transpose(1, 2)).view(-1, C // 2, H, W))`. -/
noncomputable def AttentionBlock.oOut (A : AttentionBlock) (x : Tensor4) : Tensor4 :=
  conv1x1nb A.channels (A.channels / 2) A.oW (view4of3 (A.bmo x) (A.channels / 2) x.h x.w)

/-- `return self.gamma * o + x` (the success value of the forward pass;
the result shape is the shape of `x`). -/
noncomputable def AttentionBlock.attnOut (A : AttentionBlock) (x : Tensor4) : Tensor4 :=
  ⟨x.n, x.c, x.h, x.w, fun b c i j => A.gamma * (A.oOut x).data b c i j + x.data b c i j⟩

/-- The arithmetic shape checks PyTorch performs during
`AttentionBlock.forward`: input channel count for the projections, one
divisibility/positivity check per `view` with an inferred `-1` extent,
batch/inner-extent agreement for each `bmm`, and batch/channel agreement
for the final broadcast add (its spatial extents agree definitionally,
since the last `view` restores `x.h` and `x.w`).  All extents are written
through computable tensors (`beta` has the extents of `scores`). -/
def AttentionBlock.ok (A : AttentionBlock) (x : Tensor4) : Prop :=
  x.c = A.channels ∧
  (0 < A.channels / 8 * (x.h * x.w) ∧
    numel4 (A.theta4 x) % (A.channels / 8 * (x.h * x.w)) = 0) ∧
  (0 < A.channels / 8 * (x.h * x.w / 4) ∧
    numel4 (A.phi4 x) % (A.channels / 8 * (x.h * x.w / 4)) = 0) ∧
  (0 < A.channels / 2 * (x.h * x.w / 4) ∧
    numel4 (A.g4 x) % (A.channels / 2 * (x.h * x.w / 4)) = 0) ∧
  ((A.theta3 x).n = (A.phi3 x).n ∧ (transpose3 (A.theta3 x)).q = (A.phi3 x).p) ∧
  ((A.g3 x).n = (A.scores x).n ∧ (A.g3 x).q = (A.scores x).q) ∧
  (0 < A.channels / 2 * (x.h * x.w) ∧
    A.bmoNumel x % (A.channels / 2 * (x.h * x.w)) = 0) ∧
  (A.bmoNumel x / (A.channels / 2 * (x.h * x.w)) = x.n ∧ A.channels = x.c)

instance (A : AttentionBlock) (x : Tensor4) : Decidable (A.ok x) := by
  unfold AttentionBlock.ok
  infer_instance

/-- `AttentionBlock.forward` (source lines 168-188): returns the attended
tensor when every shape check passes, `none` (a raised `RuntimeError`)
otherwise. -/
noncomputable def AttentionBlock.fwd (A : AttentionBlock) (x : Tensor4) : Option Tensor4 :=
  if A.ok x then some (A.attnOut x) else none

/-- When the input has the block's channel count, the channel count is a
positive multiple of 8, and both spatial extents are positive and even,
every shape check in `AttentionBlock.forward` passes. -/
theorem AttentionBlock.ok_of_valid (A : AttentionBlock) (x : Tensor4)
    (hc : x.c = A.channels) (h8 : A.channels % 8 = 0) (hc0 : 0 < A.channels)
    (hhe : x.h % 2 = 0) (hwe : x.w % 2 = 0) (hh0 : 0 < x.h) (hw0 : 0 < x.w) :
    A.ok x := by
  obtain ⟨k, hk⟩ : ∃ k, A.channels = 8 * k := ⟨A.channels / 8, by omega⟩
  obtain ⟨m, hm⟩ : ∃ m, x.h = 2 * m := ⟨x.h / 2, by omega⟩
  obtain ⟨n, hn⟩ : ∃ n, x.w = 2 * n := ⟨x.w / 2, by omega⟩
  have hk0 : 0 < k := by omega
  have hm0 : 0 < m := by omega
  have hn0 : 0 < n := by omega
  have e8 : A.channels / 8 = k := by omega
  have e2 : A.channels / 2 = 4 * k := by omega
  have eh : x.h / 2 = m := by omega
  have ew : x.w / 2 = n := by omega
  have e4 : x.h * x.w / 4 = m * n := by
    rw [hm, hn]
    have h4 : 2 * m * (2 * n) = 4 * (m * n) := by ring
    rw [h4, Nat.mul_div_cancel_left _ (by norm_num : (0:ℕ) < 4)]
  have hhw0 : 0 < x.h * x.w := Nat.mul_pos hh0 hw0
  have hp1 : 0 < A.channels / 8 * (x.h * x.w) := by
    rw [e8]; exact Nat.mul_pos hk0 hhw0
  have hp2 : 0 < A.channels / 8 * (x.h * x.w / 4) := by
    rw [e8, e4]; exact Nat.mul_pos hk0 (Nat.mul_pos hm0 hn0)
  have hp3 : 0 < A.channels / 2 * (x.h * x.w / 4) := by
    rw [e2, e4]; exact Nat.mul_pos (by omega) (Nat.mul_pos hm0 hn0)
  have hp4 : 0 < A.channels / 2 * (x.h * x.w) := by
    rw [e2]; exact Nat.mul_pos (by omega) hhw0
  have hth : numel4 (A.theta4 x) = x.n * (A.channels / 8 * (x.h * x.w)) := rfl
  have hph : numel4 (A.phi4 x) = x.n * (A.channels / 8 * (x.h / 2 * (x.w / 2))) := rfl
  have hg : numel4 (A.g4 x) = x.n * (A.channels / 2 * (x.h / 2 * (x.w / 2))) := rfl
  have hmn : x.h / 2 * (x.w / 2) = x.h * x.w / 4 := by rw [eh, ew, e4]
  have htn : (A.theta3 x).n = x.n := by
    show numel4 (A.theta4 x) / (A.channels / 8 * (x.h * x.w)) = x.n
    rw [hth, Nat.mul_div_cancel _ hp1]
  have hpn : (A.phi3 x).n = x.n := by
    show numel4 (A.phi4 x) / (A.channels / 8 * (x.h * x.w / 4)) = x.n
    rw [hph, hmn, Nat.mul_div_cancel _ hp2]
  have hgn : (A.g3 x).n = x.n := by
    show numel4 (A.g4 x) / (A.channels / 2 * (x.h * x.w / 4)) = x.n
    rw [hg, hmn, Nat.mul_div_cancel _ hp3]
  have hsn : (A.scores x).n = x.n := htn
  have hbmo : A.bmoNumel x = x.n * (A.channels / 2 * (x.h * x.w)) := by
    show (A.g3 x).n * (A.channels / 2 * (x.h * x.w)) = _
    rw [hgn]
  refine ⟨hc, ⟨hp1, ?_⟩, ⟨hp2, ?_⟩, ⟨hp3, ?_⟩, ⟨by rw [htn, hpn], rfl⟩,
    ⟨by rw [hgn, hsn], rfl⟩, ⟨hp4, ?_⟩, ?_, by rw [hc]⟩
  · rw [hth, Nat.mul_mod_left]
  · rw [hph, hmn, Nat.mul_mod_left]
  · rw [hg, hmn, Nat.mul_mod_left]
  · rw [hbmo, Nat.mul_mod_left]
  · rw [hbmo, Nat.mul_div_cancel _ hp4]

/-- Under the validity conditions of `AttentionBlock.ok_of_valid`, the
forward pass succeeds and returns `attnOut`. -/
theorem AttentionBlock.fwd_some_of_valid (A : AttentionBlock) (x : Tensor4)
    (hc : x.c = A.channels) (h8 : A.channels % 8 = 0) (hc0 : 0 < A.channels)
    (hhe : x.h % 2 = 0) (hwe : x.w % 2 = 0) (hh0 : 0 < x.h) (hw0 : 0 < x.w) :
    A.fwd x = some (A.attnOut x) := by
  unfold AttentionBlock.fwd
  rw [if_pos (A.ok_of_valid x hc h8 hc0 hhe hwe hh0 hw0)]

@[simp] theorem attnOut_n (A : AttentionBlock) (x : Tensor4) : (A.attnOut x).n = x.n := rfl
@[simp] theorem attnOut_c (A : AttentionBlock) (x : Tensor4) : (A.attnOut x).c = x.c := rfl
@[simp] theorem attnOut_h (A : AttentionBlock) (x : Tensor4) : (A.attnOut x).h = x.h := rfl
@[simp] theorem attnOut_w (A : AttentionBlock) (x : Tensor4) : (A.attnOut x).w = x.w := rfl

/-!
`ClassConditionalBatchNorm2d` (source lines 77-96) and the two residual
blocks (`GResidualBlock`, lines 207-249; `DResidualBlock`, lines 356-407).
-/

/-- Parameters of `ClassConditionalBatchNorm2d`: a `BatchNorm2d` plus two
bias-free linear maps from the conditioning vector to per-channel scale and
shift, each wrapped in `nn.utils.spectral_norm` in the source (recorded by
the `..SN` flags). -/
structure CCBN where
  inDim : ℕ
  outC : ℕ
  bn : BN2d
  scaleSN : Bool
  shiftSN : Bool
  scaleW : ℕ → ℕ → ℝ
  shiftW : ℕ → ℕ → ℝ

/-- Bias-free linear map of a conditioning row vector, one output per
channel (`self.class_scale_transform(y)` and the shift analogue). -/
def linNB (W : ℕ → ℕ → ℝ) (inDim : ℕ) (y : Tensor2) (b c : ℕ) : ℝ :=
  ∑ j ∈ Finset.range inDim, W c j * y.data b j

/-- `ClassConditionalBatchNorm2d.forward`:
`(1 + scale(y)) * bn(x) + shift(y)`, broadcasting over space. -/
noncomputable def CCBN.fwd (m : CCBN) (x : Tensor4) (y : Tensor2) : Tensor4 :=
  ⟨x.n, x.c, x.h, x.w, fun b c i j =>
    (1 + linNB m.scaleW m.inDim y b c) * (bn2dFwd m.bn x).data b c i j +
      linNB m.shiftW m.inDim y b c⟩

@[simp] theorem CCBN.fwd_n (m : CCBN) (x : Tensor4) (y : Tensor2) : (m.fwd x y).n = x.n := rfl
@[simp] theorem CCBN.fwd_c (m : CCBN) (x : Tensor4) (y : Tensor2) : (m.fwd x y).c = x.c := rfl
@[simp] theorem CCBN.fwd_h (m : CCBN) (x : Tensor4) (y : Tensor2) : (m.fwd x y).h = x.h := rfl
@[simp] theorem CCBN.fwd_w (m : CCBN) (x : Tensor4) (y : Tensor2) : (m.fwd x y).w = x.w := rfl

/-- Parameters of `GResidualBlock.__init__`: conditioning width, channel
extents, two 3x3 convolutions, two class-conditional batch norms and the
1x1 mixin convolution (which the source creates only when
`in_channels != out_channels`; it is stored here unconditionally and used
exactly under that condition). -/
structure GResidualBlock where
  cDim : ℕ
  inC : ℕ
  outC : ℕ
  conv1 : Conv2dP
  conv2 : Conv2dP
  bn1 : CCBN
  bn2 : CCBN
  convMixin : Conv2dP

/-- `self.mixin = (in_channels != out_channels)` (source line 228). -/
def GResidualBlock.mixin (blk : GResidualBlock) : Bool := blk.inC != blk.outC

/-- Main path of `GResidualBlock.forward` (source lines 233-242):
`conv2(relu(bn2(conv1(upsample(relu(bn1(x, y)))), y)))`. -/
noncomputable def GResidualBlock.hPath (blk : GResidualBlock) (x : Tensor4) (y : Tensor2) :
    Tensor4 :=
  conv2d blk.conv2 (relu4 (blk.bn2.fwd
    (conv2d blk.conv1 (upsample2 (relu4 (blk.bn1.fwd x y)))) y))

/-- Skip path of `GResidualBlock.forward` (source lines 244-247):
`x = upsample(x); if mixin: x = conv_mixin(x)`. -/
def GResidualBlock.skipPath (blk : GResidualBlock) (x : Tensor4) : Tensor4 :=
  if blk.mixin then conv2d blk.convMixin (upsample2 x) else upsample2 x

/-- Success value of `GResidualBlock.forward`: `h + x` (source line 249). -/
noncomputable def GResidualBlock.out (blk : GResidualBlock) (x : Tensor4) (y : Tensor2) :
    Tensor4 :=
  add4 (blk.hPath x y) (blk.skipPath x)

/-- `GResidualBlock.forward`, guarded by the channel/width checks PyTorch
performs (input channels for `conv1`/`bn1`, conditioning width for the
class-conditional linear maps). -/
noncomputable def GResidualBlock.fwd (blk : GResidualBlock) (x : Tensor4) (y : Tensor2) :
    Option Tensor4 :=
  if x.c = blk.inC ∧ y.d = blk.cDim then some (blk.out x y) else none

theorem GResidualBlock.fwd_some_of_widths (blk : GResidualBlock) (x : Tensor4) (y : Tensor2)
    (hc : x.c = blk.inC) (hy : y.d = blk.cDim) :
    blk.fwd x y = some (blk.out x y) := by
  unfold GResidualBlock.fwd
  rw [if_pos ⟨hc, hy⟩]

@[simp] theorem GResidualBlock.out_n (blk : GResidualBlock) (x : Tensor4) (y : Tensor2) :
    (blk.out x y).n = x.n := rfl
@[simp] theorem GResidualBlock.out_c (blk : GResidualBlock) (x : Tensor4) (y : Tensor2) :
    (blk.out x y).c = blk.conv2.outC := rfl
/-- Parameters of `DResidualBlock.__init__`: channel extents, two 3x3
convolutions, the downsampling and pre-activation flags and the 1x1 mixin
convolution (created in the source only when `self.mixin` holds; stored
here unconditionally and used exactly under that condition). -/
structure DResidualBlock where
  inC : ℕ
  outC : ℕ
  conv1 : Conv2dP
  conv2 : Conv2dP
  downP : Bool
  usePre : Bool
  convMixin : Conv2dP

/-- `self.mixin = (in_channels != out_channels) or downsample` (line 378). -/
def DResidualBlock.mixin (blk : DResidualBlock) : Bool :=
  (blk.inC != blk.outC) || blk.downP

/-- Apply the mixin convolution when `self.mixin` holds. -/
def DResidualBlock.mixIf (blk : DResidualBlock) (t : Tensor4) : Tensor4 :=
  if blk.mixin then conv2d blk.convMixin t else t

/-- Apply `self.downsample_fn` when `self.downsample` holds. -/
noncomputable def DResidualBlock.dsIf (blk : DResidualBlock) (t : Tensor4) : Tensor4 :=
  if blk.downP then avgPool2 t else t

/-- `DResidualBlock._residual` (source lines 382-393): with pre-activation
the mixin convolution comes first, then downsampling; otherwise
downsampling comes first, then the mixin convolution. -/
noncomputable def DResidualBlock.residual (blk : DResidualBlock) (x : Tensor4) : Tensor4 :=
  if blk.usePre then blk.dsIf (blk.mixIf x) else blk.mixIf (blk.dsIf x)

/-- Main path of `DResidualBlock.forward` (source lines 396-405):
optional pre-activation, `conv1`, activation, optional downsampling.
`conv2` is never applied. -/
noncomputable def DResidualBlock.mainPath (blk : DResidualBlock) (x : Tensor4) : Tensor4 :=
  blk.dsIf (relu4 (conv2d blk.conv1 (if blk.usePre then relu4 x else x)))

/-- Success value of `DResidualBlock.forward`: `h + self._residual(x)`. -/
noncomputable def DResidualBlock.out (blk : DResidualBlock) (x : Tensor4) : Tensor4 :=
  add4 (blk.mainPath x) (blk.residual x)

/-- `DResidualBlock.forward`, guarded by the input-channel check of
`conv1`. -/
noncomputable def DResidualBlock.fwd (blk : DResidualBlock) (x : Tensor4) : Option Tensor4 :=
  if x.c = blk.inC then some (blk.out x) else none

theorem DResidualBlock.fwd_some_of_channel (blk : DResidualBlock) (x : Tensor4)
    (hc : x.c = blk.inC) : blk.fwd x = some (blk.out x) := by
  unfold DResidualBlock.fwd
  rw [if_pos hc]

/-!
Constructors mirroring the `__init__` methods: each takes the layer
hyperparameters exactly as the source computes them plus a bundle of free
weight parameters, and records which layers the source wraps in
`nn.utils.spectral_norm`.
-/

/-- Free parameters of an `nn.Conv2d` (weight and bias). -/
structure ConvW where
  W : ℕ → ℕ → ℕ → ℕ → ℝ
  bias : ℕ → ℝ

/-- Free parameters of an `nn.Linear` (weight and bias). -/
structure LinW where
  W : ℕ → ℕ → ℝ
  bias : ℕ → ℝ

/-- Free parameters of a `ClassConditionalBatchNorm2d`. -/
structure CCBNW where
  bn : BN2d
  scaleW : ℕ → ℕ → ℝ
  shiftW : ℕ → ℕ → ℝ

/-- Free parameters of a `GResidualBlock`. -/
structure GResW where
  bn1 : CCBNW
  bn2 : CCBNW
  c1 : ConvW
  c2 : ConvW
  cm : ConvW

/-- Free parameters of an `AttentionBlock`. -/
structure AttnW where
  th : ℕ → ℕ → ℝ
  ph : ℕ → ℕ → ℝ
  g : ℕ → ℕ → ℝ
  o : ℕ → ℕ → ℝ
  gamma : ℝ

/-- Free parameters of a `DResidualBlock`. -/
structure DResW where
  c1 : ConvW
  c2 : ConvW
  cm : ConvW

/-- Build a `Conv2dP` from its hyperparameters and free weights. -/
def mkConv (ci co k p : ℕ) (sn : Bool) (P : ConvW) : Conv2dP :=
  ⟨ci, co, k, p, sn, P.W, P.bias⟩

/-- `ClassConditionalBatchNorm2d.__init__` (lines 85-89): both linear maps
are spectral-normalized and bias-free. -/
def mkCCBN (inD outC : ℕ) (P : CCBNW) : CCBN :=
  ⟨inD, outC, P.bn, true, true, P.scaleW, P.shiftW⟩

/-- `GResidualBlock.__init__` (lines 216-230): two spectral-normalized 3x3
convolutions with padding 1, two class-conditional batch norms, and a
spectral-normalized 1x1 mixin convolution. -/
def mkGRes (cd ci co : ℕ) (P : GResW) : GResidualBlock :=
  ⟨cd, ci, co, mkConv ci co 3 1 true P.c1, mkConv co co 3 1 true P.c2,
   mkCCBN cd ci P.bn1, mkCCBN cd co P.bn2, mkConv ci co 1 0 true P.cm⟩

/-- `AttentionBlock.__init__` (lines 156-166): four spectral-normalized
bias-free 1x1 projections and the zero-initializable gain. -/
def mkAttn (c : ℕ) (P : AttnW) : AttentionBlock :=
  ⟨c, true, true, true, true, P.th, P.ph, P.g, P.o, P.gamma⟩

/-- `DResidualBlock.__init__` (lines 366-380): two spectral-normalized 3x3
convolutions with padding 1, the two flags, and a spectral-normalized 1x1
mixin convolution. -/
def mkDRes (ci co : ℕ) (dn pre : Bool) (P : DResW) : DResidualBlock :=
  ⟨ci, co, mkConv ci co 3 1 true P.c1, mkConv co co 3 1 true P.c2,
   dn, pre, mkConv ci co 1 0 true P.cm⟩

/-- Free parameters of the `Generator`. -/
structure GenW where
  emb : ℕ → ℕ → ℝ
  pz : LinW
  r1 : GResW
  r2 : GResW
  r3 : GResW
  r4 : GResW
  r5 : GResW
  a1 : AttnW
  a2 : AttnW
  a3 : AttnW
  a4 : AttnW
  a5 : AttnW
  poBN : BN2d
  poC : ConvW

/-- The `Generator` module: hyperparameters, the shared class-embedding
table (NOT spectral-normalized, source line 280), the noise projection
`proj_z` (a plain `nn.Linear`, source line 282), five
(residual, attention) stages and the output projection `proj_o`. -/
structure Generator where
  baseChannels : ℕ
  bottomWidth : ℕ
  zDim : ℕ
  sharedDim : ℕ
  nClasses : ℕ
  sharedEmbSN : Bool
  sharedEmbW : ℕ → ℕ → ℝ
  projZ : LinearP
  g1 : GResidualBlock
  g2 : GResidualBlock
  g3 : GResidualBlock
  g4 : GResidualBlock
  g5 : GResidualBlock
  at1 : AttentionBlock
  at2 : AttentionBlock
  at3 : AttentionBlock
  at4 : AttentionBlock
  at5 : AttentionBlock
  projBN : BN2d
  projConv : Conv2dP

/-- `Generator.__init__` (lines 270-312): `z_chunk_size = z_dim // 6`; the
five residual stages take conditioning width `shared_dim + z_chunk_size`
and channel schedule `16, 16->16, 16->8, 8->4, 4->2, 2->1` times
`base_channels`; `proj_z` maps `z_chunk_size` to
`16 * base_channels * bottom_width ** 2` without spectral normalization;
`proj_o` is batch norm, ReLU, a spectral-normalized 1x1 convolution to 3
channels, and tanh. -/
def mkGenerator (base bw zdim shared ncls : ℕ) (P : GenW) : Generator :=
  { baseChannels := base, bottomWidth := bw, zDim := zdim, sharedDim := shared,
    nClasses := ncls,
    sharedEmbSN := false, sharedEmbW := P.emb,
    projZ := ⟨zdim / 6, 16 * base * bw ^ 2, false, P.pz.W, P.pz.bias⟩,
    g1 := mkGRes (shared + zdim / 6) (16 * base) (16 * base) P.r1,
    g2 := mkGRes (shared + zdim / 6) (16 * base) (8 * base) P.r2,
    g3 := mkGRes (shared + zdim / 6) (8 * base) (4 * base) P.r3,
    g4 := mkGRes (shared + zdim / 6) (4 * base) (2 * base) P.r4,
    g5 := mkGRes (shared + zdim / 6) (2 * base) base P.r5,
    at1 := mkAttn (16 * base) P.a1,
    at2 := mkAttn (8 * base) P.a2,
    at3 := mkAttn (4 * base) P.a3,
    at4 := mkAttn (2 * base) P.a4,
    at5 := mkAttn base P.a5,
    projBN := P.poBN,
    projConv := ⟨base, 3, 1, 0, true, P.poC.W, P.poC.bias⟩ }

/-- `zs = torch.split(z, self.z_chunk_size, dim=1)` (source line 322). -/
def Generator.zChunks (G : Generator) (z : Tensor2) : List Tensor2 :=
  split2 z (G.zDim / 6)

/-- `ys = [torch.cat([y, z], dim=1) for z in zs[1:]]` (source line 324). -/
def Generator.condVecs (G : Generator) (z y : Tensor2) : List Tensor2 :=
  (G.zChunks z).tail.map (cat2 y)

/-- `h = self.proj_z(zs[0]); h = h.view(h.size(0), -1, bw, bw)`
(source lines 323, 327-328). -/
def Generator.initialMap (G : Generator) (z : Tensor2) : Tensor4 :=
  view4of2 (linearF G.projZ ((G.zChunks z).getD 0 dT2)) G.bottomWidth

/-- One generator stage: `h = g_block[0](h, ys[idx]); h = g_block[1](h)`
(source lines 331-333). -/
noncomputable def stageG (gb : GResidualBlock) (ab : AttentionBlock) (h : Tensor4)
    (yv : Tensor2) : Option Tensor4 :=
  (gb.fwd h yv).bind ab.fwd

/-- `proj_o`: batch norm, ReLU, spectral-normalized 1x1 convolution to RGB,
tanh (source lines 307-312). -/
noncomputable def Generator.projOut (G : Generator) (t : Tensor4) : Tensor4 :=
  tanh4 (conv2d G.projConv (relu4 (bn2dFwd G.projBN t)))

/-- Shape checks of `Generator.forward` outside the blocks: `zs[0]` and the
five `ys[idx]` reads must be in range, `torch.cat` needs equal batch
extents, `proj_z` needs input width `z_chunk_size`, and the
`view(h.size(0), -1, bw, bw)` needs its element count divisible. -/
def Generator.guards (G : Generator) (z y : Tensor2) : Prop :=
  0 < (G.zChunks z).length ∧ 5 ≤ (G.condVecs z y).length ∧ z.n = y.n ∧
  ((G.zChunks z).getD 0 dT2).d = G.projZ.inDim ∧
  0 < G.bottomWidth * G.bottomWidth ∧
  G.projZ.outDim % (G.bottomWidth * G.bottomWidth) = 0

instance (G : Generator) (z y : Tensor2) : Decidable (G.guards z y) := by
  unfold Generator.guards
  infer_instance

/-- `Generator.forward` (source lines 314-338). -/
noncomputable def Generator.forward (G : Generator) (z y : Tensor2) : Option Tensor4 :=
  if G.guards z y then
    (stageG G.g1 G.at1 (G.initialMap z) ((G.condVecs z y).getD 0 dT2)).bind fun t1 =>
    (stageG G.g2 G.at2 t1 ((G.condVecs z y).getD 1 dT2)).bind fun t2 =>
    (stageG G.g3 G.at3 t2 ((G.condVecs z y).getD 2 dT2)).bind fun t3 =>
    (stageG G.g4 G.at4 t3 ((G.condVecs z y).getD 3 dT2)).bind fun t4 =>
    (stageG G.g5 G.at5 t4 ((G.condVecs z y).getD 4 dT2)).map fun t5 => G.projOut t5
  else none

/-- Free parameters of the `Discriminator`. -/
structure DisW where
  emb : ℕ → ℕ → ℝ
  r1 : DResW
  r2 : DResW
  r3 : DResW
  r4 : DResW
  r5 : DResW
  r6 : DResW
  a1 : AttnW
  a2 : AttnW
  a3 : AttnW
  a4 : AttnW
  a5 : AttnW
  a6 : AttnW
  po : LinW

/-- The `Discriminator` module: the spectral-normalized class-embedding
table, six (residual, attention) stages, and the spectral-normalized
unconditional projection `proj_o`. -/
structure Discriminator where
  baseChannels : ℕ
  nClasses : ℕ
  embSN : Bool
  embW : ℕ → ℕ → ℝ
  d1 : DResidualBlock
  d2 : DResidualBlock
  d3 : DResidualBlock
  d4 : DResidualBlock
  d5 : DResidualBlock
  d6 : DResidualBlock
  a1 : AttentionBlock
  a2 : AttentionBlock
  a3 : AttentionBlock
  a4 : AttentionBlock
  a5 : AttentionBlock
  a6 : AttentionBlock
  projO : LinearP

/-- `Discriminator.__init__` (lines 423-450): stage schedule
`3->1, 1->2, 2->4, 4->8, 8->16, 16->16` times `base_channels`, all stages
downsampling except the last, all using pre-activation except the first;
embedding and `proj_o` spectral-normalized. -/
def mkDiscriminator (base ncls : ℕ) (P : DisW) : Discriminator :=
  { baseChannels := base, nClasses := ncls, embSN := true, embW := P.emb,
    d1 := mkDRes 3 base true false P.r1,
    d2 := mkDRes base (2 * base) true true P.r2,
    d3 := mkDRes (2 * base) (4 * base) true true P.r3,
    d4 := mkDRes (4 * base) (8 * base) true true P.r4,
    d5 := mkDRes (8 * base) (16 * base) true true P.r5,
    d6 := mkDRes (16 * base) (16 * base) false true P.r6,
    a1 := mkAttn base P.a1,
    a2 := mkAttn (2 * base) P.a2,
    a3 := mkAttn (4 * base) P.a3,
    a4 := mkAttn (8 * base) P.a4,
    a5 := mkAttn (16 * base) P.a5,
    a6 := mkAttn (16 * base) P.a6,
    projO := ⟨16 * base, 1, true, P.po.W, P.po.bias⟩ }

/-- One discriminator stage: residual block then attention. -/
noncomputable def stageD (db : DResidualBlock) (ab : AttentionBlock) (h : Tensor4) :
    Option Tensor4 :=
  (db.fwd h).bind ab.fwd

/-- Success value of one discriminator stage. -/
noncomputable def stageDOut (db : DResidualBlock) (ab : AttentionBlock) (h : Tensor4) :
    Tensor4 :=
  ab.attnOut (db.out h)

/-- Success value of the whole `d_blocks` pipeline of the discriminator. -/
noncomputable def Discriminator.pipe (D : Discriminator) (x : Tensor4) : Tensor4 :=
  stageDOut D.d6 D.a6 (stageDOut D.d5 D.a5 (stageDOut D.d4 D.a4
    (stageDOut D.d3 D.a3 (stageDOut D.d2 D.a2 (stageDOut D.d1 D.a1 x)))))

/-- Spatially sum-pooled features `torch.sum(self.d_blocks(x), dim=[2, 3])`
(success value; source lines 453-454, final `nn.ReLU` included). -/
noncomputable def Discriminator.pooled (D : Discriminator) (x : Tensor4) : Tensor2 :=
  sumPool (relu4 (D.pipe x))

/-- The `d_blocks` pipeline plus pooling, with each stage's shape checks. -/
noncomputable def Discriminator.features (D : Discriminator) (x : Tensor4) : Option Tensor2 :=
  (stageD D.d1 D.a1 x).bind fun t1 =>
  (stageD D.d2 D.a2 t1).bind fun t2 =>
  (stageD D.d3 D.a3 t2).bind fun t3 =>
  (stageD D.d4 D.a4 t3).bind fun t4 =>
  (stageD D.d5 D.a5 t4).bind fun t5 =>
  (stageD D.d6 D.a6 t5).map fun t6 => sumPool (relu4 t6)

/-- Class-conditional contribution
`torch.sum(self.shared_emb(y) * h, dim=1, keepdim=True)` (source line 462).
The class labels are modelled as a function from batch index to class. -/
def Discriminator.condOut (D : Discriminator) (f : ℕ → ℕ) (hT : Tensor2) : Tensor2 :=
  ⟨hT.n, 1, fun b _ => ∑ c ∈ Finset.range hT.d, D.embW (f b) c * hT.data b c⟩

/-- `Discriminator.forward` (source lines 452-463): unconditional score
`proj_o(h)`; when a label function is supplied, add the class-conditional
dot product (guarded by the embedding-table range check PyTorch performs
on the label indices). -/
noncomputable def Discriminator.forward (D : Discriminator) (x : Tensor4)
    (lbl : Option (ℕ → ℕ)) : Option Tensor2 :=
  (D.features x).bind fun hT =>
    if hT.d = D.projO.inDim then
      match lbl with
      | none => some (linearF D.projO hT)
      | some f =>
          if ∀ b < hT.n, f b < D.nClasses then
            some (add2 (linearF D.projO hT) (D.condOut f hT))
          else none
    else none

/-! Supporting lemmas: list accessors, stage shapes, stage success, tanh. -/

theorem split2_length (z : Tensor2) (cs : ℕ) :
    (split2 z cs).length = (z.d + cs - 1) / cs := by
  simp [split2]

theorem split2_getD (z : Tensor2) (cs i : ℕ) (hi : i < (z.d + cs - 1) / cs) :
    (split2 z cs).getD i dT2 =
      ⟨z.n, min cs (z.d - i * cs), fun b j => z.data b (i * cs + j)⟩ := by
  unfold split2
  rw [List.getD_eq_getElem?_getD, List.getElem?_map, List.getElem?_range hi]
  rfl

theorem tail_map_getD (f : Tensor2 → Tensor2) (l : List Tensor2) (i : ℕ)
    (hi : i + 1 < l.length) :
    (l.tail.map f).getD i dT2 = f (l.getD (i + 1) dT2) := by
  cases l with
  | nil => simp at hi
  | cons a rest =>
    have hi' : i < rest.length := by simpa using hi
    simp only [List.tail_cons]
    rw [List.getD_eq_getElem?_getD, List.getElem?_map, List.getElem?_eq_getElem hi']
    rw [List.getD_cons_succ, List.getD_eq_getElem?_getD, List.getElem?_eq_getElem hi']
    rfl

theorem real_tanh_le_one (x : ℝ) : Real.tanh x ≤ 1 := by
  rw [Real.tanh_eq_sinh_div_cosh]
  rw [div_le_one (Real.cosh_pos x)]
  exact (Real.sinh_lt_cosh x).le

theorem neg_one_le_real_tanh (x : ℝ) : -1 ≤ Real.tanh x := by
  rw [Real.tanh_eq_sinh_div_cosh]
  rw [le_div_iff₀ (Real.cosh_pos x)]
  have h := (Real.sinh_lt_cosh (-x)).le
  rw [Real.sinh_neg, Real.cosh_neg] at h
  linarith

@[simp] theorem mkGRes_out_n (cd ci co : ℕ) (P : GResW) (x : Tensor4) (y : Tensor2) :
    ((mkGRes cd ci co P).out x y).n = x.n := rfl

@[simp] theorem mkGRes_out_c (cd ci co : ℕ) (P : GResW) (x : Tensor4) (y : Tensor2) :
    ((mkGRes cd ci co P).out x y).c = co := rfl

@[simp] theorem mkGRes_out_h (cd ci co : ℕ) (P : GResW) (x : Tensor4) (y : Tensor2) :
    ((mkGRes cd ci co P).out x y).h = 2 * x.h := by
  show 2 * x.h + 2 * 1 + 1 - 3 + 2 * 1 + 1 - 3 = 2 * x.h
  omega

@[simp] theorem mkGRes_out_w (cd ci co : ℕ) (P : GResW) (x : Tensor4) (y : Tensor2) :
    ((mkGRes cd ci co P).out x y).w = 2 * x.w := by
  show 2 * x.w + 2 * 1 + 1 - 3 + 2 * 1 + 1 - 3 = 2 * x.w
  omega

theorem DResidualBlock.dsIf_n (blk : DResidualBlock) (t : Tensor4) :
    (blk.dsIf t).n = t.n := by
  unfold DResidualBlock.dsIf
  split <;> rfl

theorem DResidualBlock.dsIf_c (blk : DResidualBlock) (t : Tensor4) :
    (blk.dsIf t).c = t.c := by
  unfold DResidualBlock.dsIf
  split <;> rfl

theorem DResidualBlock.dsIf_h (blk : DResidualBlock) (t : Tensor4) :
    (blk.dsIf t).h = if blk.downP then t.h / 2 else t.h := by
  unfold DResidualBlock.dsIf
  split <;> simp_all

theorem DResidualBlock.dsIf_w (blk : DResidualBlock) (t : Tensor4) :
    (blk.dsIf t).w = if blk.downP then t.w / 2 else t.w := by
  unfold DResidualBlock.dsIf
  split <;> simp_all

@[simp] theorem mkDRes_out_n (ci co : ℕ) (dn pre : Bool) (P : DResW) (x : Tensor4) :
    ((mkDRes ci co dn pre P).out x).n = x.n := by
  show ((mkDRes ci co dn pre P).dsIf _).n = x.n
  rw [DResidualBlock.dsIf_n]
  cases pre <;> rfl

@[simp] theorem mkDRes_out_c (ci co : ℕ) (dn pre : Bool) (P : DResW) (x : Tensor4) :
    ((mkDRes ci co dn pre P).out x).c = co := by
  show ((mkDRes ci co dn pre P).dsIf _).c = co
  rw [DResidualBlock.dsIf_c]
  rfl

@[simp] theorem mkDRes_out_h (ci co : ℕ) (dn pre : Bool) (P : DResW) (x : Tensor4) :
    ((mkDRes ci co dn pre P).out x).h = if dn then x.h / 2 else x.h := by
  show ((mkDRes ci co dn pre P).dsIf _).h = _
  rw [DResidualBlock.dsIf_h]
  have hh : (relu4 (conv2d (mkDRes ci co dn pre P).conv1
      (if (mkDRes ci co dn pre P).usePre then relu4 x else x))).h = x.h := by
    cases pre <;> (show x.h + 2 * 1 + 1 - 3 = x.h; omega)
  rw [hh]
  rfl

@[simp] theorem mkDRes_out_w (ci co : ℕ) (dn pre : Bool) (P : DResW) (x : Tensor4) :
    ((mkDRes ci co dn pre P).out x).w = if dn then x.w / 2 else x.w := by
  show ((mkDRes ci co dn pre P).dsIf _).w = _
  rw [DResidualBlock.dsIf_w]
  have hw : (relu4 (conv2d (mkDRes ci co dn pre P).conv1
      (if (mkDRes ci co dn pre P).usePre then relu4 x else x))).w = x.w := by
    cases pre <;> (show x.w + 2 * 1 + 1 - 3 = x.w; omega)
  rw [hw]
  rfl

/-- A generator stage succeeds whenever the incoming activation has the
residual block's input channel count, the conditioning vector has the
block's conditioning width, and the stage's (common) output channel count
is a positive multiple of 8 with positive spatial extents. -/
theorem stageG_mk_some (cd ci co ca : ℕ) (Pr : GResW) (Pa : AttnW) (h : Tensor4)
    (yv : Tensor2) (hc : h.c = ci) (hy : yv.d = cd) (hca : co = ca)
    (h8 : ca % 8 = 0) (hc0 : 0 < ca) (hh0 : 0 < h.h) (hw0 : 0 < h.w) :
    stageG (mkGRes cd ci co Pr) (mkAttn ca Pa) h yv =
      some ((mkAttn ca Pa).attnOut ((mkGRes cd ci co Pr).out h yv)) := by
  unfold stageG
  rw [GResidualBlock.fwd_some_of_widths _ _ _ hc hy]
  show (mkAttn ca Pa).fwd ((mkGRes cd ci co Pr).out h yv) = _
  exact AttentionBlock.fwd_some_of_valid _ _ (by subst hca; rfl) h8 hc0
    (by simp [Nat.mul_mod_right]) (by simp [Nat.mul_mod_right])
    (by simp; omega) (by simp; omega)

/-- A discriminator stage succeeds under the analogous conditions; the
post-block spatial extents (halved when downsampling) must be positive and
even for the attention block. -/
theorem stageD_mk_some (ci co ca : ℕ) (dn pre : Bool) (Pd : DResW) (Pa : AttnW)
    (h : Tensor4) (hc : h.c = ci) (hca : co = ca) (h8 : ca % 8 = 0) (hc0 : 0 < ca)
    (hhe : (if dn then h.h / 2 else h.h) % 2 = 0)
    (hwe : (if dn then h.w / 2 else h.w) % 2 = 0)
    (hh0 : 0 < (if dn then h.h / 2 else h.h))
    (hw0 : 0 < (if dn then h.w / 2 else h.w)) :
    stageD (mkDRes ci co dn pre Pd) (mkAttn ca Pa) h =
      some ((mkAttn ca Pa).attnOut ((mkDRes ci co dn pre Pd).out h)) := by
  unfold stageD
  rw [DResidualBlock.fwd_some_of_channel _ _ hc]
  show (mkAttn ca Pa).fwd ((mkDRes ci co dn pre Pd).out h) = _
  exact AttentionBlock.fwd_some_of_valid _ _ (by subst hca; simp [mkAttn]) h8 hc0
    (by simpa using hhe) (by simpa using hwe) (by simpa using hh0) (by simpa using hw0)

/-! Concrete zero-weight parameter bundles and test tensors, used by the
witness theorems. -/

def zConvW : ConvW := ⟨fun _ _ _ _ => 0, fun _ => 0⟩

def zLinW : LinW := ⟨fun _ _ => 0, fun _ => 0⟩

def zBN : BN2d := ⟨0, fun _ => 0, fun _ => 0, fun _ => 0, fun _ => 0⟩

def zCCBNW : CCBNW := ⟨zBN, fun _ _ => 0, fun _ _ => 0⟩

def zGResW : GResW := ⟨zCCBNW, zCCBNW, zConvW, zConvW, zConvW⟩

def zAttnW : AttnW := ⟨fun _ _ => 0, fun _ _ => 0, fun _ _ => 0, fun _ _ => 0, 0⟩

def zDResW : DResW := ⟨zConvW, zConvW, zConvW⟩

def zGenW : GenW :=
  ⟨fun _ _ => 0, zLinW, zGResW, zGResW, zGResW, zGResW, zGResW,
   zAttnW, zAttnW, zAttnW, zAttnW, zAttnW, zBN, zConvW⟩

def zDisW : DisW :=
  ⟨fun _ _ => 0, zDResW, zDResW, zDResW, zDResW, zDResW, zDResW,
   zAttnW, zAttnW, zAttnW, zAttnW, zAttnW, zAttnW, zLinW⟩

/-- All-zero 2-D test tensor. -/
def tZ (n d : ℕ) : Tensor2 := ⟨n, d, fun _ _ => 0⟩

/-- All-zero 4-D test tensor. -/
def tX (n c h w : ℕ) : Tensor4 := ⟨n, c, h, w, fun _ _ _ _ => 0⟩

/-- C5: when the learnable gain `gamma` is 0, `AttentionBlock.forward` is an
exact identity on every input tensor of valid shape: it succeeds and
returns the input unchanged. -/
theorem C5_attention_gamma_zero_identity (A : AttentionBlock) (x : Tensor4)
    (hγ : A.gamma = 0) (hc : x.c = A.channels) (h8 : A.channels % 8 = 0)
    (hc0 : 0 < A.channels) (hhe : x.h % 2 = 0) (hwe : x.w % 2 = 0)
    (hh0 : 0 < x.h) (hw0 : 0 < x.w) :
    A.fwd x = some x := by
  rw [A.fwd_some_of_valid x hc h8 hc0 hhe hwe hh0 hw0]
  congr 1
  cases x with
  | mk n c h w d =>
    unfold AttentionBlock.attnOut
    simp only [hγ, zero_mul, zero_add]

/-- Witness for C5 at a concrete block (8 channels, zero weights, gain 0)
and a concrete `[1, 8, 2, 2]` input. -/
theorem C5_witness :
    (mkAttn 8 zAttnW).fwd (tX 1 8 2 2) = some (tX 1 8 2 2) :=
  C5_attention_gamma_zero_identity (mkAttn 8 zAttnW) (tX 1 8 2 2) rfl rfl
    (by decide) (by decide) (by decide) (by decide) (by decide) (by decide)

/-- C6: in `AttentionBlock.forward` the key and value projections are
max-pooled by 2 in each spatial dimension and flattened to `H*W/4` columns;
the attention weights are the softmax over the last axis of
`query^T . key`, of shape `[B, H*W, H*W/4]`, and the pre-softmax scores are
the raw dot products over the `C/8` bottleneck channels with no `1/sqrt(d_k)`
scaling factor. -/
theorem C6_attention_weights (A : AttentionBlock) (x : Tensor4)
    (hc : x.c = A.channels) (h8 : A.channels % 8 = 0) (hc0 : 0 < A.channels)
    (hhe : x.h % 2 = 0) (hwe : x.w % 2 = 0) (hh0 : 0 < x.h) (hw0 : 0 < x.w) :
    (A.beta x).n = x.n ∧ (A.beta x).p = x.h * x.w ∧ (A.beta x).q = x.h * x.w / 4 ∧
    A.beta x = softmax3 (bmm (transpose3 (A.theta3 x)) (A.phi3 x)) ∧
    A.phi3 x = view3 (maxPool2 (conv1x1nb (A.channels / 8) A.channels A.phW x))
      (A.channels / 8) (x.h * x.w / 4) ∧
    A.g3 x = view3 (maxPool2 (conv1x1nb (A.channels / 2) A.channels A.gW x))
      (A.channels / 2) (x.h * x.w / 4) ∧
    ∀ b i j, (A.scores x).data b i j =
      ∑ c ∈ Finset.range (A.channels / 8),
        (A.theta3 x).data b c i * (A.phi3 x).data b c j := by
  have h8le : 8 ≤ A.channels := Nat.le_of_dvd hc0 (Nat.dvd_of_mod_eq_zero h8)
  have hk0 : 0 < A.channels / 8 := Nat.div_pos h8le (by norm_num)
  have hpos : 0 < A.channels / 8 * (x.h * x.w) :=
    Nat.mul_pos hk0 (Nat.mul_pos hh0 hw0)
  refine ⟨?_, rfl, rfl, rfl, rfl, rfl, fun b i j => rfl⟩
  show numel4 (A.theta4 x) / (A.channels / 8 * (x.h * x.w)) = x.n
  have hth : numel4 (A.theta4 x) = x.n * (A.channels / 8 * (x.h * x.w)) := rfl
  rw [hth, Nat.mul_div_cancel _ hpos]

/-- Witness for C6 at a concrete block (8 channels, zero weights) and a
concrete `[1, 8, 2, 2]` input. -/
theorem C6_witness :
    ((mkAttn 8 zAttnW).beta (tX 1 8 2 2)).n = 1 ∧
    ((mkAttn 8 zAttnW).beta (tX 1 8 2 2)).p = 4 ∧
    ((mkAttn 8 zAttnW).beta (tX 1 8 2 2)).q = 1 := by
  have h := C6_attention_weights (mkAttn 8 zAttnW) (tX 1 8 2 2) rfl (by decide)
    (by decide) (by decide) (by decide) (by decide) (by decide)
  exact ⟨h.1, h.2.1, h.2.2.1⟩

/-- C7: `GResidualBlock.forward` computes the main path
`conv2(relu(bn2(conv1(upsample(relu(bn1(x, y)))), y)))`, a skip path that
upsamples `x` by the same factor 2 and applies the spectral-normalized 1x1
mixin convolution exactly when `Cin != Cout`, and returns their sum, whose
shape is `[B, Cout, 2H, 2W]`; the skip path also has shape
`[B, Cout, 2H, 2W]`. -/
theorem C7_gresblock_structure (cd ci co : ℕ) (P : GResW) (x : Tensor4) (y : Tensor2)
    (hc : x.c = ci) (hy : y.d = cd) :
    (mkGRes cd ci co P).fwd x y =
      some (add4 ((mkGRes cd ci co P).hPath x y) ((mkGRes cd ci co P).skipPath x)) ∧
    (mkGRes cd ci co P).hPath x y =
      conv2d (mkGRes cd ci co P).conv2 (relu4 ((mkGRes cd ci co P).bn2.fwd
        (conv2d (mkGRes cd ci co P).conv1
          (upsample2 (relu4 ((mkGRes cd ci co P).bn1.fwd x y)))) y)) ∧
    ((mkGRes cd ci co P).mixin = true ↔ ci ≠ co) ∧
    (mkGRes cd ci co P).skipPath x =
      (if (mkGRes cd ci co P).mixin then
        conv2d (mkGRes cd ci co P).convMixin (upsample2 x) else upsample2 x) ∧
    ((mkGRes cd ci co P).out x y).n = x.n ∧ ((mkGRes cd ci co P).out x y).c = co ∧
    ((mkGRes cd ci co P).out x y).h = 2 * x.h ∧
    ((mkGRes cd ci co P).out x y).w = 2 * x.w ∧
    ((mkGRes cd ci co P).skipPath x).n = x.n ∧
    ((mkGRes cd ci co P).skipPath x).c = co ∧
    ((mkGRes cd ci co P).skipPath x).h = 2 * x.h ∧
    ((mkGRes cd ci co P).skipPath x).w = 2 * x.w := by
  have hmix : (mkGRes cd ci co P).mixin = true ↔ ci ≠ co := by
    simp [GResidualBlock.mixin, mkGRes]
  have hskip : ((mkGRes cd ci co P).skipPath x).n = x.n ∧
      ((mkGRes cd ci co P).skipPath x).c = co ∧
      ((mkGRes cd ci co P).skipPath x).h = 2 * x.h ∧
      ((mkGRes cd ci co P).skipPath x).w = 2 * x.w := by
    unfold GResidualBlock.skipPath
    by_cases h : ci = co
    · rw [if_neg (by simp [GResidualBlock.mixin, mkGRes, h])]
      exact ⟨rfl, by rw [← h, ← hc]; rfl, rfl, rfl⟩
    · rw [if_pos (by simp [GResidualBlock.mixin, mkGRes, h])]
      refine ⟨rfl, rfl, ?_, ?_⟩
      · show 2 * x.h + 2 * 0 + 1 - 1 = 2 * x.h
        omega
      · show 2 * x.w + 2 * 0 + 1 - 1 = 2 * x.w
        omega
  exact ⟨GResidualBlock.fwd_some_of_widths _ x y hc hy, rfl, hmix, rfl,
    rfl, rfl, by simp, by simp, hskip.1, hskip.2.1, hskip.2.2.1, hskip.2.2.2⟩

/-- Witness for C7 at a channel-changing concrete block (`Cin = 2`,
`Cout = 4`) on a concrete `[1, 2, 2, 2]` input. -/
theorem C7_witness :
    (mkGRes 3 2 4 zGResW).fwd (tX 1 2 2 2) (tZ 1 3) =
      some (add4 ((mkGRes 3 2 4 zGResW).hPath (tX 1 2 2 2) (tZ 1 3))
        ((mkGRes 3 2 4 zGResW).skipPath (tX 1 2 2 2))) ∧
    ((mkGRes 3 2 4 zGResW).mixin = true ↔ (2 : ℕ) ≠ 4) :=
  have h := C7_gresblock_structure 3 2 4 zGResW (tX 1 2 2 2) (tZ 1 3) rfl rfl
  ⟨h.1, h.2.2.1⟩

/-- C8: in `DResidualBlock` the skip path applies the 1x1 mixin convolution
exactly when `Cin != Cout` or downsampling is enabled; with
`use_preactivation` the mixin convolution is applied before downsampling,
without it downsampling is applied first; the output is the main path plus
this skip path. -/
theorem C8_dresblock_skip_order (ci co : ℕ) (dn pre : Bool) (P : DResW) (x : Tensor4)
    (hc : x.c = ci) :
    ((mkDRes ci co dn pre P).mixin = true ↔ (ci ≠ co ∨ dn = true)) ∧
    (mkDRes ci co dn pre P).mixIf x =
      (if (mkDRes ci co dn pre P).mixin then
        conv2d (mkDRes ci co dn pre P).convMixin x else x) ∧
    (mkDRes ci co dn pre P).residual x =
      (if pre then (mkDRes ci co dn pre P).dsIf ((mkDRes ci co dn pre P).mixIf x)
       else (mkDRes ci co dn pre P).mixIf ((mkDRes ci co dn pre P).dsIf x)) ∧
    (mkDRes ci co dn pre P).fwd x =
      some (add4 ((mkDRes ci co dn pre P).mainPath x)
        ((mkDRes ci co dn pre P).residual x)) := by
  refine ⟨?_, rfl, rfl, DResidualBlock.fwd_some_of_channel _ x hc⟩
  simp [DResidualBlock.mixin, mkDRes]

/-- Witness for C8 at a concrete block with equal channels but downsampling
(mixin forced by the downsample flag alone) on a `[1, 2, 4, 4]` input. -/
theorem C8_witness :
    ((mkDRes 2 2 true true zDResW).mixin = true ↔ ((2 : ℕ) ≠ 2 ∨ true = true)) ∧
    (mkDRes 2 2 true true zDResW).fwd (tX 1 2 4 4) =
      some (add4 ((mkDRes 2 2 true true zDResW).mainPath (tX 1 2 4 4))
        ((mkDRes 2 2 true true zDResW).residual (tX 1 2 4 4))) :=
  have h := C8_dresblock_skip_order 2 2 true true zDResW (tX 1 2 4 4) rfl
  ⟨h.1, h.2.2.2⟩

/-- C9: `DResidualBlock.forward` never applies `conv2`: replacing the weight
and bias of `conv2` by any two assignments leaves the forward result
unchanged, even though `conv2` is constructed and stored in the block. -/
theorem C9_dresblock_conv2_unused (blk : DResidualBlock) (x : Tensor4)
    (w1 w2 : ℕ → ℕ → ℕ → ℕ → ℝ) (b1 b2 : ℕ → ℝ) :
    DResidualBlock.fwd { blk with conv2 := { blk.conv2 with W := w1, bias := b1 } } x =
    DResidualBlock.fwd { blk with conv2 := { blk.conv2 with W := w2, bias := b2 } } x := rfl

/-- C10 (amended): even positive spatial extents (with a positive channel
count divisible by 8) guarantee that every reshape in
`AttentionBlock.forward` succeeds — under evenness the pooled extents
satisfy `(H/2)*(W/2) = H*W/4` — so the forward pass returns a tensor.
Odd extents are NOT guaranteed to fail (see the counterexample). -/
theorem C10_even_extents_attention_succeeds (A : AttentionBlock) (x : Tensor4)
    (hc : x.c = A.channels) (h8 : A.channels % 8 = 0) (hc0 : 0 < A.channels)
    (hhe : x.h % 2 = 0) (hwe : x.w % 2 = 0) (hh0 : 0 < x.h) (hw0 : 0 < x.w) :
    x.h / 2 * (x.w / 2) = x.h * x.w / 4 ∧ (A.fwd x).isSome = true := by
  constructor
  · obtain ⟨m, hm⟩ : ∃ m, x.h = 2 * m := ⟨x.h / 2, by omega⟩
    obtain ⟨n, hn⟩ : ∃ n, x.w = 2 * n := ⟨x.w / 2, by omega⟩
    rw [hm, hn]
    have h4 : 2 * m * (2 * n) = 4 * (m * n) := by ring
    rw [h4, Nat.mul_div_cancel_left _ (by norm_num : (0:ℕ) < 4)]
    have h2 : 2 * m / 2 = m := by omega
    have h2' : 2 * n / 2 = n := by omega
    rw [h2, h2']
  · rw [A.fwd_some_of_valid x hc h8 hc0 hhe hwe hh0 hw0]
    rfl

/-- Witness for the amended C10 at a concrete block and `[1, 8, 2, 4]`
input. -/
theorem C10_witness :
    (2 : ℕ) / 2 * (4 / 2) = 2 * 4 / 4 ∧
    ((mkAttn 8 zAttnW).fwd (tX 1 8 2 4)).isSome = true :=
  C10_even_extents_attention_succeeds (mkAttn 8 zAttnW) (tX 1 8 2 4) rfl (by decide)
    (by decide) (by decide) (by decide) (by decide) (by decide)

/-- Counterexample to C10 as stated: the claim says an odd `H` or `W` makes
the reshape fail rather than return a tensor, but on a `[1, 8, 3, 2]` input
(odd `H = 3`) every shape check passes and the forward pass returns a
tensor. -/
theorem C10_counterexample :
    (tX 1 8 3 2).h % 2 = 1 ∧ ((mkAttn 8 zAttnW).fwd (tX 1 8 3 2)).isSome = true := by
  constructor
  · rfl
  · have hok : (mkAttn 8 zAttnW).ok (tX 1 8 3 2) := by decide
    unfold AttentionBlock.fwd
    rw [if_pos hok]
    rfl

/-!
Spectral-normalization coverage.  For each weighted operator (convolution,
linear map, embedding table) that `forward` actually applies, the lists
below collect the flag recording whether the source wraps that operator in
`nn.utils.spectral_norm`, in application order.
-/

/-- Spectral-norm flags of the weighted operators a `GResidualBlock` applies
in `forward`: the two class-conditional linear maps of each `bn`, the two
3x3 convolutions, and the mixin convolution exactly when it exists. -/
def GResidualBlock.snFlags (blk : GResidualBlock) : List Bool :=
  [blk.bn1.scaleSN, blk.bn1.shiftSN, blk.conv1.sn,
   blk.bn2.scaleSN, blk.bn2.shiftSN, blk.conv2.sn] ++
  (if blk.mixin then [blk.convMixin.sn] else [])

/-- Spectral-norm flags of the four projections an `AttentionBlock` applies
in `forward`. -/
def AttentionBlock.snFlags (A : AttentionBlock) : List Bool :=
  [A.thSN, A.phSN, A.gSN, A.oSN]

/-- Spectral-norm flags of the weighted operators a `DResidualBlock` applies
in `forward`: `conv1` and the mixin convolution when it exists (`conv2` is
constructed but never applied in `forward`, so it is not listed). -/
def DResidualBlock.snFlags (blk : DResidualBlock) : List Bool :=
  [blk.conv1.sn] ++ (if blk.mixin then [blk.convMixin.sn] else [])

/-- Spectral-norm flags of every weighted operator `Generator.forward`
applies, in order: `proj_z`, the five (residual, attention) stages, and the
`proj_o` output convolution.  (`shared_emb` is looked up by the caller, not
inside `forward`, and carries no spectral normalization by design.) -/
def Generator.fwdSN (G : Generator) : List Bool :=
  G.projZ.sn ::
    (G.g1.snFlags ++ G.at1.snFlags ++ G.g2.snFlags ++ G.at2.snFlags ++
     G.g3.snFlags ++ G.at3.snFlags ++ G.g4.snFlags ++ G.at4.snFlags ++
     G.g5.snFlags ++ G.at5.snFlags ++ [G.projConv.sn])

/-- Spectral-norm flags of every weighted operator `Discriminator.forward`
applies, in order: the class-embedding table, the six (residual, attention)
stages, and `proj_o`. -/
def Discriminator.fwdSN (D : Discriminator) : List Bool :=
  D.embSN ::
    (D.d1.snFlags ++ D.a1.snFlags ++ D.d2.snFlags ++ D.a2.snFlags ++
     D.d3.snFlags ++ D.a3.snFlags ++ D.d4.snFlags ++ D.a4.snFlags ++
     D.d5.snFlags ++ D.a5.snFlags ++ D.d6.snFlags ++ D.a6.snFlags ++
     [D.projO.sn])

theorem mkGRes_snFlags_all (cd ci co : ℕ) (P : GResW) :
    ∀ s ∈ (mkGRes cd ci co P).snFlags, s = true := by
  intro s hs
  unfold GResidualBlock.snFlags at hs
  rcases List.mem_append.1 hs with h | h
  · simp [mkGRes, mkConv, mkCCBN] at h
    exact h
  · split at h
    · simp [mkGRes, mkConv] at h
      exact h
    · simp at h

theorem mkAttn_snFlags_all (c : ℕ) (P : AttnW) :
    ∀ s ∈ (mkAttn c P).snFlags, s = true := by
  intro s hs
  simp [AttentionBlock.snFlags, mkAttn] at hs
  exact hs

theorem mkDRes_snFlags_all (ci co : ℕ) (dn pre : Bool) (P : DResW) :
    ∀ s ∈ (mkDRes ci co dn pre P).snFlags, s = true := by
  intro s hs
  unfold DResidualBlock.snFlags at hs
  rcases List.mem_append.1 hs with h | h
  · simp [mkDRes, mkConv] at h
    exact h
  · split at h
    · simp [mkDRes, mkConv] at h
      exact h
    · simp at h

/-- C3 (amended): with the sole exception of the generator's noise
projection `proj_z` — a plain `nn.Linear` (source line 282), the head of
`Generator.fwdSN` — every weighted operator applied inside
`Generator.forward` or `Discriminator.forward` (every convolution, linear
map and the discriminator's embedding table) is spectral-normalized. -/
theorem C3_spectral_norm_except_proj_z (base bw zdim shared ncls based nclsd : ℕ)
    (P : GenW) (Q : DisW) :
    ∀ s ∈ (mkGenerator base bw zdim shared ncls P).fwdSN.tail ++
        (mkDiscriminator based nclsd Q).fwdSN, s = true := by
  have hgen : ∀ s ∈ (mkGenerator base bw zdim shared ncls P).fwdSN.tail, s = true := by
    have htl : (mkGenerator base bw zdim shared ncls P).fwdSN.tail =
        (mkGenerator base bw zdim shared ncls P).g1.snFlags ++
        (mkGenerator base bw zdim shared ncls P).at1.snFlags ++
        (mkGenerator base bw zdim shared ncls P).g2.snFlags ++
        (mkGenerator base bw zdim shared ncls P).at2.snFlags ++
        (mkGenerator base bw zdim shared ncls P).g3.snFlags ++
        (mkGenerator base bw zdim shared ncls P).at3.snFlags ++
        (mkGenerator base bw zdim shared ncls P).g4.snFlags ++
        (mkGenerator base bw zdim shared ncls P).at4.snFlags ++
        (mkGenerator base bw zdim shared ncls P).g5.snFlags ++
        (mkGenerator base bw zdim shared ncls P).at5.snFlags ++
        [(mkGenerator base bw zdim shared ncls P).projConv.sn] := rfl
    rw [htl]
    refine List.forall_mem_append.2 ⟨?_, ?_⟩
    · refine List.forall_mem_append.2 ⟨?_, mkAttn_snFlags_all _ _⟩
      refine List.forall_mem_append.2 ⟨?_, mkGRes_snFlags_all _ _ _ _⟩
      refine List.forall_mem_append.2 ⟨?_, mkAttn_snFlags_all _ _⟩
      refine List.forall_mem_append.2 ⟨?_, mkGRes_snFlags_all _ _ _ _⟩
      refine List.forall_mem_append.2 ⟨?_, mkAttn_snFlags_all _ _⟩
      refine List.forall_mem_append.2 ⟨?_, mkGRes_snFlags_all _ _ _ _⟩
      refine List.forall_mem_append.2 ⟨?_, mkAttn_snFlags_all _ _⟩
      refine List.forall_mem_append.2 ⟨?_, mkGRes_snFlags_all _ _ _ _⟩
      exact List.forall_mem_append.2
        ⟨mkGRes_snFlags_all _ _ _ _, mkAttn_snFlags_all _ _⟩
    · intro s h
      rw [List.mem_singleton.1 h]
      rfl
  have happ : ∀ s ∈ (mkDiscriminator based nclsd Q).d1.snFlags ++
      (mkDiscriminator based nclsd Q).a1.snFlags ++
      (mkDiscriminator based nclsd Q).d2.snFlags ++
      (mkDiscriminator based nclsd Q).a2.snFlags ++
      (mkDiscriminator based nclsd Q).d3.snFlags ++
      (mkDiscriminator based nclsd Q).a3.snFlags ++
      (mkDiscriminator based nclsd Q).d4.snFlags ++
      (mkDiscriminator based nclsd Q).a4.snFlags ++
      (mkDiscriminator based nclsd Q).d5.snFlags ++
      (mkDiscriminator based nclsd Q).a5.snFlags ++
      (mkDiscriminator based nclsd Q).d6.snFlags ++
      (mkDiscriminator based nclsd Q).a6.snFlags ++
      [(mkDiscriminator based nclsd Q).projO.sn], s = true := by
    refine List.forall_mem_append.2 ⟨?_, ?_⟩
    · refine List.forall_mem_append.2 ⟨?_, mkAttn_snFlags_all _ _⟩
      refine List.forall_mem_append.2 ⟨?_, mkDRes_snFlags_all _ _ _ _ _⟩
      refine List.forall_mem_append.2 ⟨?_, mkAttn_snFlags_all _ _⟩
      refine List.forall_mem_append.2 ⟨?_, mkDRes_snFlags_all _ _ _ _ _⟩
      refine List.forall_mem_append.2 ⟨?_, mkAttn_snFlags_all _ _⟩
      refine List.forall_mem_append.2 ⟨?_, mkDRes_snFlags_all _ _ _ _ _⟩
      refine List.forall_mem_append.2 ⟨?_, mkAttn_snFlags_all _ _⟩
      refine List.forall_mem_append.2 ⟨?_, mkDRes_snFlags_all _ _ _ _ _⟩
      refine List.forall_mem_append.2 ⟨?_, mkAttn_snFlags_all _ _⟩
      refine List.forall_mem_append.2 ⟨?_, mkDRes_snFlags_all _ _ _ _ _⟩
      exact List.forall_mem_append.2
        ⟨mkDRes_snFlags_all _ _ _ _ _, mkAttn_snFlags_all _ _⟩
    · intro s h
      rw [List.mem_singleton.1 h]
      rfl
  have hdis : ∀ s ∈ (mkDiscriminator based nclsd Q).fwdSN, s = true := by
    intro s h
    rcases List.mem_cons.1 h with h | h
    · rw [h]
      rfl
    · exact happ s h
  exact List.forall_mem_append.2 ⟨hgen, hdis⟩

/-- Witness for the amended C3: at the constructed model sizes, `true` is a
member of the flag list and the theorem applies to it. -/
theorem C3_witness : true = true :=
  C3_spectral_norm_except_proj_z 96 4 120 128 5 96 5 zGenW zDisW true (by decide)

/-- Counterexample to C3 as stated: not every weighted operator used inside
the forward passes is spectral-normalized — the generator's `proj_z`
(head of `Generator.fwdSN`) is a plain `nn.Linear`, so the list of flags
contains `false`. -/
theorem C3_counterexample :
    ¬ ∀ s ∈ (mkGenerator 96 4 120 128 5 zGenW).fwdSN ++
        (mkDiscriminator 96 5 zDisW).fwdSN, s = true := by
  intro hall
  have hf : (false : Bool) ∈ (mkGenerator 96 4 120 128 5 zGenW).fwdSN ++
      (mkDiscriminator 96 5 zDisW).fwdSN := by decide
  exact Bool.false_ne_true (hall false hf)

/-- C4: for the constructed model (`z_dim = 120`, `shared_dim = 128`,
`base_channels = 96`, `bottom_width = 4`), `Generator.forward` splits the
noise into exactly 6 equal chunks of width `120 / 6 = 20`; chunk 0 alone
feeds `proj_z`, whose reshaped result is the `[B, 16*96, 4, 4]` initial
feature map; and stage `i` (1..5) receives the concatenation of the shared,
unsplit class embedding with chunk `i`, of width `128 + 20 = 148`. -/
theorem C4_noise_chunking (P : GenW) (z y : Tensor2)
    (hz : z.d = 120) (hy : y.d = 128) :
    ((mkGenerator 96 4 120 128 5 P).zChunks z).length = 6 ∧
    (∀ t ∈ (mkGenerator 96 4 120 128 5 P).zChunks z, t.d = 20) ∧
    ((mkGenerator 96 4 120 128 5 P).condVecs z y).length = 5 ∧
    (∀ i < 5, ((mkGenerator 96 4 120 128 5 P).condVecs z y).getD i dT2 =
      cat2 y (((mkGenerator 96 4 120 128 5 P).zChunks z).getD (i + 1) dT2)) ∧
    (∀ t ∈ (mkGenerator 96 4 120 128 5 P).condVecs z y, t.d = 148) ∧
    (mkGenerator 96 4 120 128 5 P).initialMap z =
      view4of2 (linearF (mkGenerator 96 4 120 128 5 P).projZ
        (((mkGenerator 96 4 120 128 5 P).zChunks z).getD 0 dT2)) 4 ∧
    ((mkGenerator 96 4 120 128 5 P).initialMap z).n = z.n ∧
    ((mkGenerator 96 4 120 128 5 P).initialMap z).c = 16 * 96 ∧
    ((mkGenerator 96 4 120 128 5 P).initialMap z).h = 4 ∧
    ((mkGenerator 96 4 120 128 5 P).initialMap z).w = 4 := by
  have hcs : (mkGenerator 96 4 120 128 5 P).zDim / 6 = 20 := by norm_num [mkGenerator]
  have hlen : ((mkGenerator 96 4 120 128 5 P).zChunks z).length = 6 := by
    rw [Generator.zChunks, hcs, split2_length, hz]
  have hchd : ∀ t ∈ (mkGenerator 96 4 120 128 5 P).zChunks z, t.d = 20 := by
    intro t ht
    rw [Generator.zChunks, hcs] at ht
    unfold split2 at ht
    rcases List.mem_map.1 ht with ⟨i, hi, rfl⟩
    rcases List.mem_range.1 hi with hi'
    show min 20 (z.d - i * 20) = 20
    rw [hz] at hi' ⊢
    omega
  have hcvlen : ((mkGenerator 96 4 120 128 5 P).condVecs z y).length = 5 := by
    rw [Generator.condVecs, List.length_map, List.length_tail, hlen]
  have hcveq : ∀ i < 5, ((mkGenerator 96 4 120 128 5 P).condVecs z y).getD i dT2 =
      cat2 y (((mkGenerator 96 4 120 128 5 P).zChunks z).getD (i + 1) dT2) := by
    intro i hi
    rw [Generator.condVecs, tail_map_getD _ _ _ (by rw [hlen]; omega)]
  have hcvd : ∀ t ∈ (mkGenerator 96 4 120 128 5 P).condVecs z y, t.d = 148 := by
    intro t ht
    rw [Generator.condVecs] at ht
    rcases List.mem_map.1 ht with ⟨c, hc, rfl⟩
    have hcz : c ∈ (mkGenerator 96 4 120 128 5 P).zChunks z := List.mem_of_mem_tail hc
    show y.d + c.d = 148
    rw [hy, hchd c hcz]
  have hch0 : ((mkGenerator 96 4 120 128 5 P).zChunks z).getD 0 dT2 =
      ⟨z.n, min 20 (z.d - 0 * 20), fun b j => z.data b (0 * 20 + j)⟩ := by
    rw [Generator.zChunks, hcs, split2_getD z 20 0 (by rw [hz]; norm_num)]
  refine ⟨hlen, hchd, hcvlen, hcveq, hcvd, rfl, ?_, ?_, rfl, rfl⟩
  · rw [Generator.initialMap, view4of2_n, linearF_n, hch0]
  · show (mkGenerator 96 4 120 128 5 P).projZ.outDim / (4 * 4) = 16 * 96
    norm_num [mkGenerator]

/-- Witness for C4 at concrete zero noise and embedding tensors. -/
theorem C4_witness :
    ((mkGenerator 96 4 120 128 5 zGenW).zChunks (tZ 1 120)).length = 6 ∧
    ((mkGenerator 96 4 120 128 5 zGenW).condVecs (tZ 1 120) (tZ 1 128)).length = 5 ∧
    ((mkGenerator 96 4 120 128 5 zGenW).initialMap (tZ 1 120)).c = 16 * 96 :=
  have h := C4_noise_chunking zGenW (tZ 1 120) (tZ 1 128) rfl rfl
  ⟨h.1, h.2.2.1, h.2.2.2.2.2.2.2.1⟩

/-- Existential form of `stageG_mk_some` carrying the stage output shape. -/
theorem stageG_mk_dims (cd ci co ca : ℕ) (Pr : GResW) (Pa : AttnW) (h : Tensor4)
    (yv : Tensor2) (hc : h.c = ci) (hy : yv.d = cd) (hca : co = ca)
    (h8 : ca % 8 = 0) (hc0 : 0 < ca) (hh0 : 0 < h.h) (hw0 : 0 < h.w) :
    ∃ t, stageG (mkGRes cd ci co Pr) (mkAttn ca Pa) h yv = some t ∧
      t.n = h.n ∧ t.c = co ∧ t.h = 2 * h.h ∧ t.w = 2 * h.w :=
  ⟨(mkAttn ca Pa).attnOut ((mkGRes cd ci co Pr).out h yv),
   stageG_mk_some cd ci co ca Pr Pa h yv hc hy hca h8 hc0 hh0 hw0,
   by simp, rfl, by simp, by simp⟩

/-- Existential form of `stageD_mk_some` carrying the stage output shape. -/
theorem stageD_mk_dims (ci co ca : ℕ) (dn pre : Bool) (Pd : DResW) (Pa : AttnW)
    (h : Tensor4) (hc : h.c = ci) (hca : co = ca) (h8 : ca % 8 = 0) (hc0 : 0 < ca)
    (hhe : (if dn then h.h / 2 else h.h) % 2 = 0)
    (hwe : (if dn then h.w / 2 else h.w) % 2 = 0)
    (hh0 : 0 < (if dn then h.h / 2 else h.h))
    (hw0 : 0 < (if dn then h.w / 2 else h.w)) :
    ∃ t, stageD (mkDRes ci co dn pre Pd) (mkAttn ca Pa) h = some t ∧
      t.n = h.n ∧ t.c = co ∧ t.h = (if dn then h.h / 2 else h.h) ∧
      t.w = (if dn then h.w / 2 else h.w) :=
  ⟨(mkAttn ca Pa).attnOut ((mkDRes ci co dn pre Pd).out h),
   stageD_mk_some ci co ca dn pre Pd Pa h hc hca h8 hc0 hhe hwe hh0 hw0,
   by simp, by simp, by simp, by simp⟩

/-- Batch extent of a discriminator stage output. -/
theorem stageDOut_mk_n (ci co : ℕ) (dn pre : Bool) (Pd : DResW) (ca : ℕ) (Pa : AttnW)
    (h : Tensor4) :
    (stageDOut (mkDRes ci co dn pre Pd) (mkAttn ca Pa) h).n = h.n :=
  (attnOut_n _ _).trans (mkDRes_out_n _ _ _ _ _ _)

/-- Channel extent of a discriminator stage output. -/
theorem stageDOut_mk_c (ci co : ℕ) (dn pre : Bool) (Pd : DResW) (ca : ℕ) (Pa : AttnW)
    (h : Tensor4) :
    (stageDOut (mkDRes ci co dn pre Pd) (mkAttn ca Pa) h).c = co :=
  (attnOut_c _ _).trans (mkDRes_out_c _ _ _ _ _ _)

/-- Height of a downsampling discriminator stage output. -/
theorem stageDOut_mk_dn_h (ci co : ℕ) (pre : Bool) (Pd : DResW) (ca : ℕ) (Pa : AttnW)
    (h : Tensor4) :
    (stageDOut (mkDRes ci co true pre Pd) (mkAttn ca Pa) h).h = h.h / 2 :=
  (attnOut_h _ _).trans ((mkDRes_out_h _ _ _ _ _ _).trans (if_pos rfl))

/-- Width of a downsampling discriminator stage output. -/
theorem stageDOut_mk_dn_w (ci co : ℕ) (pre : Bool) (Pd : DResW) (ca : ℕ) (Pa : AttnW)
    (h : Tensor4) :
    (stageDOut (mkDRes ci co true pre Pd) (mkAttn ca Pa) h).w = h.w / 2 :=
  (attnOut_w _ _).trans ((mkDRes_out_w _ _ _ _ _ _).trans (if_pos rfl))

/-- Height of a non-downsampling discriminator stage output. -/
theorem stageDOut_mk_nodn_h (ci co : ℕ) (pre : Bool) (Pd : DResW) (ca : ℕ) (Pa : AttnW)
    (h : Tensor4) :
    (stageDOut (mkDRes ci co false pre Pd) (mkAttn ca Pa) h).h = h.h :=
  (attnOut_h _ _).trans ((mkDRes_out_h _ _ _ _ _ _).trans (if_neg Bool.false_ne_true))

/-- Width of a non-downsampling discriminator stage output. -/
theorem stageDOut_mk_nodn_w (ci co : ℕ) (pre : Bool) (Pd : DResW) (ca : ℕ) (Pa : AttnW)
    (h : Tensor4) :
    (stageDOut (mkDRes ci co false pre Pd) (mkAttn ca Pa) h).w = h.w :=
  (attnOut_w _ _).trans ((mkDRes_out_w _ _ _ _ _ _).trans (if_neg Bool.false_ne_true))

/-- C1: for the constructed model (`base_channels = 96`, `bottom_width = 4`,
`z_dim = 120`, `shared_dim = 128`, `n_classes = 5`) and every valid input
pair (noise `[B, 120]`, class embedding `[B, 128]` with equal batch
extents), `Generator.forward` succeeds and returns a tensor of shape
`[B, 3, R, R]` with `R = 4 * 2^5 = 128` (five doubling stages above
`bottom_width`), every element of which lies in `[-1, 1]` because `proj_o`
ends in tanh. -/
theorem C1_generator_output_shape_and_range (P : GenW) (z y : Tensor2)
    (hz : z.d = 120) (hy : y.d = 128) (hn : z.n = y.n) :
    ∃ out, (mkGenerator 96 4 120 128 5 P).forward z y = some out ∧
      out.n = z.n ∧ out.c = 3 ∧ out.h = 4 * 2 ^ 5 ∧ out.w = 4 * 2 ^ 5 ∧
      ∀ b c i j, -1 ≤ out.data b c i j ∧ out.data b c i j ≤ 1 := by
  have hcs : (mkGenerator 96 4 120 128 5 P).zDim / 6 = 20 := by norm_num [mkGenerator]
  have hlen : ((mkGenerator 96 4 120 128 5 P).zChunks z).length = 6 := by
    rw [Generator.zChunks, hcs, split2_length, hz]
  have hcvd : ∀ i, i < 5 →
      (((mkGenerator 96 4 120 128 5 P).condVecs z y).getD i dT2).d = 148 := by
    intro i hi
    rw [Generator.condVecs, tail_map_getD _ _ _ (by rw [hlen]; omega)]
    show y.d + (((mkGenerator 96 4 120 128 5 P).zChunks z).getD (i + 1) dT2).d = 148
    rw [Generator.zChunks, hcs, split2_getD z 20 (i + 1) (by rw [hz]; omega)]
    show y.d + min 20 (z.d - (i + 1) * 20) = 148
    rw [hy, hz]
    omega
  have h0n : ((mkGenerator 96 4 120 128 5 P).initialMap z).n = z.n := by
    rw [Generator.initialMap, view4of2_n, linearF_n, Generator.zChunks, hcs,
      split2_getD z 20 0 (by rw [hz]; omega)]
  have h0c : ((mkGenerator 96 4 120 128 5 P).initialMap z).c = 1536 := by
    rw [Generator.initialMap, view4of2_c, linearF_d]
    norm_num [mkGenerator]
  have h0h : ((mkGenerator 96 4 120 128 5 P).initialMap z).h = 4 := rfl
  have h0w : ((mkGenerator 96 4 120 128 5 P).initialMap z).w = 4 := rfl
  have hgd : (mkGenerator 96 4 120 128 5 P).guards z y := by
    refine ⟨by rw [hlen]; norm_num, ?_, hn, ?_,
      by show (0:ℕ) < 4 * 4; norm_num,
      by show (16 * 96 * 4 ^ 2 : ℕ) % (4 * 4) = 0; norm_num⟩
    · rw [Generator.condVecs, List.length_map, List.length_tail, hlen]
    · rw [Generator.zChunks, hcs, split2_getD z 20 0 (by rw [hz]; omega)]
      show min 20 (z.d - 0 * 20) = 120 / 6
      rw [hz]
      omega
  have hg1 : (mkGenerator 96 4 120 128 5 P).g1 = mkGRes 148 1536 1536 P.r1 := by
    norm_num [mkGenerator]
  have hg2 : (mkGenerator 96 4 120 128 5 P).g2 = mkGRes 148 1536 768 P.r2 := by
    norm_num [mkGenerator]
  have hg3 : (mkGenerator 96 4 120 128 5 P).g3 = mkGRes 148 768 384 P.r3 := by
    norm_num [mkGenerator]
  have hg4 : (mkGenerator 96 4 120 128 5 P).g4 = mkGRes 148 384 192 P.r4 := by
    norm_num [mkGenerator]
  have hg5 : (mkGenerator 96 4 120 128 5 P).g5 = mkGRes 148 192 96 P.r5 := by
    norm_num [mkGenerator]
  have hat1 : (mkGenerator 96 4 120 128 5 P).at1 = mkAttn 1536 P.a1 := by
    norm_num [mkGenerator]
  have hat2 : (mkGenerator 96 4 120 128 5 P).at2 = mkAttn 768 P.a2 := by
    norm_num [mkGenerator]
  have hat3 : (mkGenerator 96 4 120 128 5 P).at3 = mkAttn 384 P.a3 := by
    norm_num [mkGenerator]
  have hat4 : (mkGenerator 96 4 120 128 5 P).at4 = mkAttn 192 P.a4 := by
    norm_num [mkGenerator]
  have hat5 : (mkGenerator 96 4 120 128 5 P).at5 = mkAttn 96 P.a5 := by
    norm_num [mkGenerator]
  obtain ⟨t1, he1, ht1n, ht1c, ht1h, ht1w⟩ :=
    stageG_mk_dims 148 1536 1536 1536 P.r1 P.a1
      ((mkGenerator 96 4 120 128 5 P).initialMap z)
      (((mkGenerator 96 4 120 128 5 P).condVecs z y).getD 0 dT2)
      h0c (hcvd 0 (by norm_num)) rfl (by norm_num) (by norm_num)
      (by rw [h0h]; norm_num) (by rw [h0w]; norm_num)
  have ht1n' : t1.n = z.n := ht1n.trans h0n
  have ht1h' : t1.h = 8 := by rw [ht1h, h0h]
  have ht1w' : t1.w = 8 := by rw [ht1w, h0w]
  obtain ⟨t2, he2, ht2n, ht2c, ht2h, ht2w⟩ :=
    stageG_mk_dims 148 1536 768 768 P.r2 P.a2 t1
      (((mkGenerator 96 4 120 128 5 P).condVecs z y).getD 1 dT2)
      ht1c (hcvd 1 (by norm_num)) rfl (by norm_num) (by norm_num)
      (by rw [ht1h']; norm_num) (by rw [ht1w']; norm_num)
  have ht2n' : t2.n = z.n := ht2n.trans ht1n'
  have ht2h' : t2.h = 16 := by rw [ht2h, ht1h']
  have ht2w' : t2.w = 16 := by rw [ht2w, ht1w']
  obtain ⟨t3, he3, ht3n, ht3c, ht3h, ht3w⟩ :=
    stageG_mk_dims 148 768 384 384 P.r3 P.a3 t2
      (((mkGenerator 96 4 120 128 5 P).condVecs z y).getD 2 dT2)
      ht2c (hcvd 2 (by norm_num)) rfl (by norm_num) (by norm_num)
      (by rw [ht2h']; norm_num) (by rw [ht2w']; norm_num)
  have ht3n' : t3.n = z.n := ht3n.trans ht2n'
  have ht3h' : t3.h = 32 := by rw [ht3h, ht2h']
  have ht3w' : t3.w = 32 := by rw [ht3w, ht2w']
  obtain ⟨t4, he4, ht4n, ht4c, ht4h, ht4w⟩ :=
    stageG_mk_dims 148 384 192 192 P.r4 P.a4 t3
      (((mkGenerator 96 4 120 128 5 P).condVecs z y).getD 3 dT2)
      ht3c (hcvd 3 (by norm_num)) rfl (by norm_num) (by norm_num)
      (by rw [ht3h']; norm_num) (by rw [ht3w']; norm_num)
  have ht4n' : t4.n = z.n := ht4n.trans ht3n'
  have ht4h' : t4.h = 64 := by rw [ht4h, ht3h']
  have ht4w' : t4.w = 64 := by rw [ht4w, ht3w']
  obtain ⟨t5, he5, ht5n, ht5c, ht5h, ht5w⟩ :=
    stageG_mk_dims 148 192 96 96 P.r5 P.a5 t4
      (((mkGenerator 96 4 120 128 5 P).condVecs z y).getD 4 dT2)
      ht4c (hcvd 4 (by norm_num)) rfl (by norm_num) (by norm_num)
      (by rw [ht4h']; norm_num) (by rw [ht4w']; norm_num)
  have ht5n' : t5.n = z.n := ht5n.trans ht4n'
  have ht5h' : t5.h = 128 := by rw [ht5h, ht4h']
  have ht5w' : t5.w = 128 := by rw [ht5w, ht4w']
  refine ⟨(mkGenerator 96 4 120 128 5 P).projOut t5, ?_, ?_, rfl, ?_, ?_, ?_⟩
  · rw [Generator.forward, if_pos hgd, hg1, hat1, hg2, hat2, hg3, hat3, hg4, hat4,
      hg5, hat5, he1, Option.some_bind, he2, Option.some_bind, he3, Option.some_bind,
      he4, Option.some_bind, he5, Option.map_some']
  · show t5.n = z.n
    exact ht5n'
  · show t5.h + 2 * 0 + 1 - 1 = 4 * 2 ^ 5
    rw [ht5h']
    norm_num
  · show t5.w + 2 * 0 + 1 - 1 = 4 * 2 ^ 5
    rw [ht5w']
    norm_num
  · intro b c i j
    exact ⟨neg_one_le_real_tanh _, real_tanh_le_one _⟩

/-- Witness for C1 at concrete zero noise and embedding tensors of batch 1. -/
theorem C1_witness :
    ∃ out, (mkGenerator 96 4 120 128 5 zGenW).forward (tZ 1 120) (tZ 1 128) = some out ∧
      out.n = 1 ∧ out.c = 3 ∧ out.h = 4 * 2 ^ 5 ∧ out.w = 4 * 2 ^ 5 ∧
      ∀ b c i j, -1 ≤ out.data b c i j ∧ out.data b c i j ≤ 1 :=
  C1_generator_output_shape_and_range zGenW (tZ 1 120) (tZ 1 128) rfl rfl rfl

set_option maxRecDepth 8192 in
/-- C2: for the constructed discriminator (`base_channels = 96`,
`n_classes = 5`) and every valid image input `[B, 3, 128, 128]`,
`Discriminator.forward` succeeds in both modes with output shape `[B, 1]`;
without a label the result is exactly the unconditional linear projection
of the spatially sum-pooled features, and with a label it is that
unconditional score plus the channel-wise dot product of the pooled
features with the selected row of the spectral-normalized embedding
table. -/
theorem C2_discriminator_modes (Q : DisW) (x : Tensor4) (f : ℕ → ℕ)
    (hc : x.c = 3) (hh : x.h = 128) (hw : x.w = 128)
    (hf : ∀ b, b < x.n → f b < 5) :
    (mkDiscriminator 96 5 Q).forward x none =
      some (linearF (mkDiscriminator 96 5 Q).projO ((mkDiscriminator 96 5 Q).pooled x)) ∧
    (linearF (mkDiscriminator 96 5 Q).projO ((mkDiscriminator 96 5 Q).pooled x)).n = x.n ∧
    (linearF (mkDiscriminator 96 5 Q).projO ((mkDiscriminator 96 5 Q).pooled x)).d = 1 ∧
    (mkDiscriminator 96 5 Q).forward x (some f) =
      some (add2 (linearF (mkDiscriminator 96 5 Q).projO ((mkDiscriminator 96 5 Q).pooled x))
        ((mkDiscriminator 96 5 Q).condOut f ((mkDiscriminator 96 5 Q).pooled x))) ∧
    (add2 (linearF (mkDiscriminator 96 5 Q).projO ((mkDiscriminator 96 5 Q).pooled x))
      ((mkDiscriminator 96 5 Q).condOut f ((mkDiscriminator 96 5 Q).pooled x))).n = x.n ∧
    (add2 (linearF (mkDiscriminator 96 5 Q).projO ((mkDiscriminator 96 5 Q).pooled x))
      ((mkDiscriminator 96 5 Q).condOut f ((mkDiscriminator 96 5 Q).pooled x))).d = 1 ∧
    ∀ b k, (add2 (linearF (mkDiscriminator 96 5 Q).projO ((mkDiscriminator 96 5 Q).pooled x))
        ((mkDiscriminator 96 5 Q).condOut f ((mkDiscriminator 96 5 Q).pooled x))).data b k =
      (linearF (mkDiscriminator 96 5 Q).projO ((mkDiscriminator 96 5 Q).pooled x)).data b k +
      ∑ c ∈ Finset.range ((mkDiscriminator 96 5 Q).pooled x).d,
        (mkDiscriminator 96 5 Q).embW (f b) c *
          ((mkDiscriminator 96 5 Q).pooled x).data b c := by
  have hd1 : (mkDiscriminator 96 5 Q).d1 = mkDRes 3 96 true false Q.r1 := by
    norm_num [mkDiscriminator]
  have hd2 : (mkDiscriminator 96 5 Q).d2 = mkDRes 96 192 true true Q.r2 := by
    norm_num [mkDiscriminator]
  have hd3 : (mkDiscriminator 96 5 Q).d3 = mkDRes 192 384 true true Q.r3 := by
    norm_num [mkDiscriminator]
  have hd4 : (mkDiscriminator 96 5 Q).d4 = mkDRes 384 768 true true Q.r4 := by
    norm_num [mkDiscriminator]
  have hd5 : (mkDiscriminator 96 5 Q).d5 = mkDRes 768 1536 true true Q.r5 := by
    norm_num [mkDiscriminator]
  have hd6 : (mkDiscriminator 96 5 Q).d6 = mkDRes 1536 1536 false true Q.r6 := by
    norm_num [mkDiscriminator]
  have ha1 : (mkDiscriminator 96 5 Q).a1 = mkAttn 96 Q.a1 := by
    norm_num [mkDiscriminator]
  have ha2 : (mkDiscriminator 96 5 Q).a2 = mkAttn 192 Q.a2 := by
    norm_num [mkDiscriminator]
  have ha3 : (mkDiscriminator 96 5 Q).a3 = mkAttn 384 Q.a3 := by
    norm_num [mkDiscriminator]
  have ha4 : (mkDiscriminator 96 5 Q).a4 = mkAttn 768 Q.a4 := by
    norm_num [mkDiscriminator]
  have ha5 : (mkDiscriminator 96 5 Q).a5 = mkAttn 1536 Q.a5 := by
    norm_num [mkDiscriminator]
  have ha6 : (mkDiscriminator 96 5 Q).a6 = mkAttn 1536 Q.a6 := by
    norm_num [mkDiscriminator]
  set u1 := stageDOut (mkDRes 3 96 true false Q.r1) (mkAttn 96 Q.a1) x with hu1def
  have he1 : stageD (mkDRes 3 96 true false Q.r1) (mkAttn 96 Q.a1) x = some u1 :=
    stageD_mk_some 3 96 96 true false Q.r1 Q.a1 x hc rfl (by norm_num) (by norm_num)
      (by norm_num [hh]) (by norm_num [hw]) (by norm_num [hh]) (by norm_num [hw])
  have hu1n : u1.n = x.n := by rw [hu1def, stageDOut_mk_n]
  have hu1c : u1.c = 96 := by rw [hu1def, stageDOut_mk_c]
  have hu1h : u1.h = 64 := by rw [hu1def, stageDOut_mk_dn_h, hh]
  have hu1w : u1.w = 64 := by rw [hu1def, stageDOut_mk_dn_w, hw]
  set u2 := stageDOut (mkDRes 96 192 true true Q.r2) (mkAttn 192 Q.a2) u1 with hu2def
  have he2 : stageD (mkDRes 96 192 true true Q.r2) (mkAttn 192 Q.a2) u1 = some u2 :=
    stageD_mk_some 96 192 192 true true Q.r2 Q.a2 u1 hu1c rfl (by norm_num) (by norm_num)
      (by norm_num [hu1h]) (by norm_num [hu1w]) (by norm_num [hu1h]) (by norm_num [hu1w])
  have hu2n : u2.n = x.n := by rw [hu2def, stageDOut_mk_n, hu1n]
  have hu2c : u2.c = 192 := by rw [hu2def, stageDOut_mk_c]
  have hu2h : u2.h = 32 := by rw [hu2def, stageDOut_mk_dn_h, hu1h]
  have hu2w : u2.w = 32 := by rw [hu2def, stageDOut_mk_dn_w, hu1w]
  set u3 := stageDOut (mkDRes 192 384 true true Q.r3) (mkAttn 384 Q.a3) u2 with hu3def
  have he3 : stageD (mkDRes 192 384 true true Q.r3) (mkAttn 384 Q.a3) u2 = some u3 :=
    stageD_mk_some 192 384 384 true true Q.r3 Q.a3 u2 hu2c rfl (by norm_num) (by norm_num)
      (by norm_num [hu2h]) (by norm_num [hu2w]) (by norm_num [hu2h]) (by norm_num [hu2w])
  have hu3n : u3.n = x.n := by rw [hu3def, stageDOut_mk_n, hu2n]
  have hu3c : u3.c = 384 := by rw [hu3def, stageDOut_mk_c]
  have hu3h : u3.h = 16 := by rw [hu3def, stageDOut_mk_dn_h, hu2h]
  have hu3w : u3.w = 16 := by rw [hu3def, stageDOut_mk_dn_w, hu2w]
  set u4 := stageDOut (mkDRes 384 768 true true Q.r4) (mkAttn 768 Q.a4) u3 with hu4def
  have he4 : stageD (mkDRes 384 768 true true Q.r4) (mkAttn 768 Q.a4) u3 = some u4 :=
    stageD_mk_some 384 768 768 true true Q.r4 Q.a4 u3 hu3c rfl (by norm_num) (by norm_num)
      (by norm_num [hu3h]) (by norm_num [hu3w]) (by norm_num [hu3h]) (by norm_num [hu3w])
  have hu4n : u4.n = x.n := by rw [hu4def, stageDOut_mk_n, hu3n]
  have hu4c : u4.c = 768 := by rw [hu4def, stageDOut_mk_c]
  have hu4h : u4.h = 8 := by rw [hu4def, stageDOut_mk_dn_h, hu3h]
  have hu4w : u4.w = 8 := by rw [hu4def, stageDOut_mk_dn_w, hu3w]
  set u5 := stageDOut (mkDRes 768 1536 true true Q.r5) (mkAttn 1536 Q.a5) u4 with hu5def
  have he5 : stageD (mkDRes 768 1536 true true Q.r5) (mkAttn 1536 Q.a5) u4 = some u5 :=
    stageD_mk_some 768 1536 1536 true true Q.r5 Q.a5 u4 hu4c rfl (by norm_num) (by norm_num)
      (by norm_num [hu4h]) (by norm_num [hu4w]) (by norm_num [hu4h]) (by norm_num [hu4w])
  have hu5n : u5.n = x.n := by rw [hu5def, stageDOut_mk_n, hu4n]
  have hu5c : u5.c = 1536 := by rw [hu5def, stageDOut_mk_c]
  have hu5h : u5.h = 4 := by rw [hu5def, stageDOut_mk_dn_h, hu4h]
  have hu5w : u5.w = 4 := by rw [hu5def, stageDOut_mk_dn_w, hu4w]
  set u6 := stageDOut (mkDRes 1536 1536 false true Q.r6) (mkAttn 1536 Q.a6) u5 with hu6def
  have he6 : stageD (mkDRes 1536 1536 false true Q.r6) (mkAttn 1536 Q.a6) u5 = some u6 :=
    stageD_mk_some 1536 1536 1536 false true Q.r6 Q.a6 u5 hu5c rfl (by norm_num)
      (by norm_num) (by norm_num [hu5h]) (by norm_num [hu5w]) (by norm_num [hu5h])
      (by norm_num [hu5w])
  have hu6n : u6.n = x.n := by rw [hu6def, stageDOut_mk_n, hu5n]
  have hu6c : u6.c = 1536 := by rw [hu6def, stageDOut_mk_c]
  have hfeat : (mkDiscriminator 96 5 Q).features x = some (sumPool (relu4 u6)) := by
    rw [Discriminator.features, hd1, ha1, hd2, ha2, hd3, ha3, hd4, ha4, hd5, ha5,
      hd6, ha6, he1, Option.some_bind, he2, Option.some_bind, he3, Option.some_bind,
      he4, Option.some_bind, he5, Option.some_bind, he6, Option.map_some']
  have hpool : sumPool (relu4 u6) = (mkDiscriminator 96 5 Q).pooled x := by
    rw [Discriminator.pooled, Discriminator.pipe, hd1, ha1, hd2, ha2, hd3, ha3,
      hd4, ha4, hd5, ha5, hd6, ha6, hu6def, hu5def, hu4def, hu3def, hu2def, hu1def]
  have hgu : (sumPool (relu4 u6)).d = (mkDiscriminator 96 5 Q).projO.inDim := by
    show u6.c = 16 * 96
    rw [hu6c]
  have hpn : ((mkDiscriminator 96 5 Q).pooled x).n = x.n := by
    rw [← hpool]
    show u6.n = x.n
    exact hu6n
  have hlab : ∀ b < (sumPool (relu4 u6)).n, f b < (mkDiscriminator 96 5 Q).nClasses := by
    intro b hb
    exact hf b (by rwa [show (sumPool (relu4 u6)).n = x.n from hu6n] at hb)
  refine ⟨?_, ?_, rfl, ?_, ?_, rfl, fun b k => rfl⟩
  · rw [Discriminator.forward, hfeat, Option.some_bind, if_pos hgu, hpool]
  · rw [linearF_n, hpn]
  · rw [Discriminator.forward, hfeat, Option.some_bind, if_pos hgu]
    show (if ∀ b < (sumPool (relu4 u6)).n, f b < (mkDiscriminator 96 5 Q).nClasses
      then some (add2 (linearF (mkDiscriminator 96 5 Q).projO (sumPool (relu4 u6)))
        ((mkDiscriminator 96 5 Q).condOut f (sumPool (relu4 u6)))) else none) = _
    rw [if_pos hlab, hpool]
  · rw [add2_n, linearF_n, hpn]

/-- Witness for C2 at a concrete `[1, 3, 128, 128]` zero image and the zero
label function. -/
theorem C2_witness :
    (mkDiscriminator 96 5 zDisW).forward (tX 1 3 128 128) none =
      some (linearF (mkDiscriminator 96 5 zDisW).projO
        ((mkDiscriminator 96 5 zDisW).pooled (tX 1 3 128 128))) ∧
    (mkDiscriminator 96 5 zDisW).forward (tX 1 3 128 128) (some fun _ => 0) =
      some (add2 (linearF (mkDiscriminator 96 5 zDisW).projO
          ((mkDiscriminator 96 5 zDisW).pooled (tX 1 3 128 128)))
        ((mkDiscriminator 96 5 zDisW).condOut (fun _ => 0)
          ((mkDiscriminator 96 5 zDisW).pooled (tX 1 3 128 128)))) :=
  have h := C2_discriminator_modes zDisW (tX 1 3 128 128) (fun _ => 0) rfl rfl rfl
    (fun _ _ => by norm_num)
  ⟨h.1, h.2.2.2.1⟩
